import Mathlib

/-
Verification development for the property-ledger question-answering pipeline
(agent_core/graph_nodes.py, agent_core/data_loader.py, agent_core/graph_builder.py,
agent_core/orchestrator.py).

The Python code is shallowly embedded: rows of the pandas dataset become a record
type, dataset-wide operations become functions over lists of rows, Python
exceptions become an `Except` monad with an explicit exception kind, and the two
language-model calls plus the JSON parse of the extraction response are modelled
as oracle inputs (the pipeline is a deterministic function of those inputs).
Python string formatting of integers is re-implemented below (`natStr`, `intStr`)
so that facts about the produced strings can be proved; `str.contains` of pandas
with `case=False` (used by the code only with literal, metacharacter-free
patterns) is modelled as case-insensitive substring containment.
-/

-- ===== Characters and strings, Python style =====

/-- ASCII lower-casing of one character, as Python `str.lower` acts on ASCII. -/
def lowerChar (c : Char) : Char :=
  if 65 ≤ c.toNat ∧ c.toNat ≤ 90 then Char.ofNat (c.toNat + 32) else c

/-- ASCII digit test. -/
def charIsDigit (c : Char) : Bool := decide (48 ≤ c.toNat ∧ c.toNat ≤ 57)

/-- Python whitespace characters (ASCII range), as matched by `\s` and `str.strip`. -/
def charIsSpace (c : Char) : Bool :=
  c = ' ' ∨ c = '\t' ∨ c = '\n' ∨ c = '\x0d' ∨ c = '\x0b' ∨ c = '\x0c'

/-- Lower-case a character list. -/
def lowerL (l : List Char) : List Char := l.map lowerChar

/-- Python `s.lower()`. -/
def pyLower (s : String) : String := (lowerL s.data).asString

/-- Python `s.strip()`. -/
def pyStrip (s : String) : String :=
  (((s.data.dropWhile charIsSpace).reverse.dropWhile charIsSpace).reverse).asString

/-- Python `pat in hay` on character lists: scan every start position. -/
def listContains (hay pat : List Char) : Bool :=
  if pat.isPrefixOf hay then true
  else
    match hay with
    | [] => false
    | _ :: t => listContains t pat

/-- Python `pat in hay` on strings (case-sensitive). -/
def strContains (hay pat : String) : Bool := listContains hay.data pat.data

/-- pandas `Series.str.contains(pat, case=False)` for a literal pattern:
case-insensitive substring containment. -/
def containsCI (hay pat : String) : Bool :=
  listContains (lowerL hay.data) (lowerL pat.data)

/-- Python `any(k in hay for k in pats)`. -/
def containsAny (hay : String) (pats : List String) : Bool :=
  pats.any (fun p => strContains hay p)

theorem listContains_iff_isInfix (hay pat : List Char) :
    listContains hay pat = true ↔ pat <:+: hay := by
  induction hay with
  | nil =>
    rw [listContains]
    constructor
    · intro h
      rcases pat with _ | ⟨c, t⟩
      · exact List.infix_rfl
      · simp [List.isPrefixOf] at h
    · intro h
      have := List.eq_nil_of_infix_nil h
      subst this
      simp [List.isPrefixOf]
  | cons c t ih =>
    rw [listContains]
    by_cases hp : pat.isPrefixOf (c :: t) = true
    · simp only [hp, if_true, true_iff]
      exact (List.IsPrefix.isInfix (List.isPrefixOf_iff_prefix.mp hp))
    · simp only [hp]
      simp only [Bool.false_eq_true, if_false]
      rw [ih]
      constructor
      · intro h
        exact h.trans (List.infix_cons_iff.mpr (Or.inr List.infix_rfl))
      · intro h
        rcases List.infix_cons_iff.mp h with h1 | h2
        · exact absurd (List.isPrefixOf_iff_prefix.mpr h1) hp
        · exact h2

theorem listContains_self (l : List Char) : listContains l l = true := by
  rw [listContains_iff_isInfix]

theorem listContains_of_append (l pat r : List Char) :
    listContains (l ++ pat ++ r) pat = true := by
  rw [listContains_iff_isInfix]
  exact ⟨l, r, by simp⟩

-- ===== Decimal rendering of integers (Python str / format) =====

/-- The decimal digit character for a digit value 0..9. -/
def digitChar (n : Nat) : Char :=
  match n with
  | 0 => '0' | 1 => '1' | 2 => '2' | 3 => '3' | 4 => '4'
  | 5 => '5' | 6 => '6' | 7 => '7' | 8 => '8' | _ => '9'

/-- Fuel-based decimal rendering of a natural number. -/
def decNat : Nat → Nat → List Char
  | 0, _ => []
  | fuel + 1, n =>
    if n < 10 then [digitChar n] else decNat fuel (n / 10) ++ [digitChar (n % 10)]

/-- Decimal rendering of a natural number, as `str` produces it in Python. -/
def natStr (n : Nat) : List Char := decNat (n + 1) n

theorem decNat_stable : ∀ (f g n : Nat), n < f → n < g → decNat f n = decNat g n := by
  intro f
  induction f with
  | zero => intro g n h; omega
  | succ f ih =>
    intro g n hf hg
    match g, hg with
    | g + 1, _ =>
      rw [decNat, decNat]
      by_cases h10 : n < 10
      · simp [h10]
      · simp only [h10, if_false]
        have hdiv : n / 10 < n := Nat.div_lt_self (by omega) (by omega)
        rw [ih g (n / 10) (by omega) (by omega)]

theorem natStr_eq (n : Nat) :
    natStr n = if n < 10 then [digitChar n] else natStr (n / 10) ++ [digitChar (n % 10)] := by
  rw [natStr, decNat]
  by_cases h10 : n < 10
  · simp [h10]
  · simp only [h10, if_false]
    have hdiv : n / 10 < n := Nat.div_lt_self (by omega) (by omega)
    rw [decNat_stable n (n / 10 + 1) (n / 10) (by omega) (by omega)]
    rfl

theorem natStr_ne_nil (n : Nat) : natStr n ≠ [] := by
  rw [natStr_eq]
  by_cases h10 : n < 10 <;> simp [h10]

theorem digitChar_isDigit (n : Nat) (h : n < 10) : charIsDigit (digitChar n) = true := by
  interval_cases n <;> decide

theorem digitChar_inj (a b : Nat) (ha : a < 10) (hb : b < 10)
    (h : digitChar a = digitChar b) : a = b := by
  interval_cases a <;> interval_cases b <;> first | rfl | exact absurd h (by decide)

theorem digitChar_ne_zero (n : Nat) (h1 : 1 ≤ n) (h2 : n < 10) : digitChar n ≠ '0' := by
  interval_cases n <;> decide

theorem natStr_digits (n : Nat) : ∀ c ∈ natStr n, charIsDigit c = true := by
  induction n using Nat.strong_induction_on with
  | _ n ih =>
    rw [natStr_eq]
    by_cases h10 : n < 10
    · simp only [h10, if_true, List.mem_singleton]
      intro c hc; subst hc; exact digitChar_isDigit n h10
    · simp only [h10, if_false, List.mem_append, List.mem_singleton]
      intro c hc
      rcases hc with hc | hc
      · exact ih (n / 10) (Nat.div_lt_self (by omega) (by omega)) c hc
      · subst hc; exact digitChar_isDigit _ (Nat.mod_lt _ (by omega))

theorem natStr_head_pos (n : Nat) (hn : 0 < n) :
    ∃ c t, natStr n = c :: t ∧ c ≠ '0' ∧ charIsDigit c = true := by
  induction n using Nat.strong_induction_on with
  | _ n ih =>
    rw [natStr_eq]
    by_cases h10 : n < 10
    · refine ⟨digitChar n, [], by simp [h10], digitChar_ne_zero n hn h10, digitChar_isDigit n h10⟩
    · simp only [h10, if_false]
      have hdiv : n / 10 < n := Nat.div_lt_self (by omega) (by omega)
      have hpos : 0 < n / 10 := by
        have := Nat.div_le_div_right (c := 10) (Nat.le_of_not_lt h10)
        omega
      obtain ⟨c, t, heq, hc0, hcd⟩ := ih (n / 10) hdiv hpos
      exact ⟨c, t ++ [digitChar (n % 10)], by rw [heq]; rfl, hc0, hcd⟩

theorem natStr_len_succ (n : Nat) (h : ¬n < 10) :
    (natStr n).length = (natStr (n / 10)).length + 1 := by
  rw [natStr_eq]; simp [h]

theorem natStr_inj : ∀ (a b : Nat), natStr a = natStr b → a = b := by
  intro a
  induction a using Nat.strong_induction_on with
  | _ a ih =>
    intro b h
    by_cases ha : a < 10 <;> by_cases hb : b < 10
    · rw [natStr_eq a, natStr_eq b] at h
      simp only [ha, hb, if_true, List.cons.injEq] at h
      exact digitChar_inj a b ha hb h.1
    · exfalso
      have h1 : (natStr a).length = 1 := by rw [natStr_eq]; simp [ha]
      have h2 := natStr_len_succ b hb
      have h3 := natStr_ne_nil (b / 10)
      have h4 : 1 ≤ (natStr (b / 10)).length := by
        cases hh : natStr (b / 10) with
        | nil => exact absurd hh h3
        | cons x xs => simp [hh]
      rw [h] at h1
      omega
    · exfalso
      have h1 : (natStr b).length = 1 := by rw [natStr_eq]; simp [hb]
      have h2 := natStr_len_succ a ha
      have h3 := natStr_ne_nil (a / 10)
      have h4 : 1 ≤ (natStr (a / 10)).length := by
        cases hh : natStr (a / 10) with
        | nil => exact absurd hh h3
        | cons x xs => simp [hh]
      rw [h] at h2
      omega
    · rw [natStr_eq a, natStr_eq b] at h
      simp only [ha, hb, if_false] at h
      have := List.append_inj' h (by simp)
      obtain ⟨hpre, hlast⟩ := this
      have hdiv : a / 10 = b / 10 :=
        ih (a / 10) (Nat.div_lt_self (by omega) (by omega)) (b / 10) hpre
      have hmod : a % 10 = b % 10 := by
        simp only [List.cons.injEq] at hlast
        exact digitChar_inj _ _ (Nat.mod_lt _ (by omega)) (Nat.mod_lt _ (by omega)) hlast.1
      omega

/-- Decimal rendering of an integer, as Python `str(int)`. -/
def intStr (i : Int) : List Char :=
  if i < 0 then '-' :: natStr (-i).toNat else natStr i.toNat

/-- Python `str(i)` as a `String`. -/
def pyIntStr (i : Int) : String := (intStr i).asString

/-- Python `f"{x}"` for an optional integer: `None` renders as `"None"`. -/
def pyReprOptInt (o : Option Int) : String :=
  match o with
  | none => "None"
  | some i => pyIntStr i

theorem intStr_ne_nil (i : Int) : intStr i ≠ [] := by
  rw [intStr]
  by_cases h : i < 0
  · simp [h]
  · simp only [h, if_false]
    exact natStr_ne_nil _

theorem intStr_chars (i : Int) : ∀ c ∈ intStr i, charIsDigit c = true ∨ c = '-' := by
  rw [intStr]
  by_cases h : i < 0
  · simp only [h, if_true, List.mem_cons]
    intro c hc
    rcases hc with hc | hc
    · exact Or.inr hc
    · exact Or.inl (natStr_digits _ c hc)
  · simp only [h, if_false]
    intro c hc
    exact Or.inl (natStr_digits _ c hc)

theorem intStr_inj (a b : Int) (h : intStr a = intStr b) : a = b := by
  rw [intStr, intStr] at h
  by_cases ha : a < 0 <;> by_cases hb : b < 0
  · simp only [ha, hb, if_true, List.cons.injEq, true_and] at h
    have := natStr_inj _ _ h
    omega
  · exfalso
    simp only [ha, hb, if_true, if_false] at h
    have hmem : '-' ∈ natStr b.toNat := by rw [← h]; exact List.mem_cons_self _ _
    exact absurd (natStr_digits _ '-' hmem) (by decide)
  · exfalso
    simp only [ha, hb, if_true, if_false] at h
    have hmem : '-' ∈ natStr a.toNat := by rw [h]; exact List.mem_cons_self _ _
    exact absurd (natStr_digits _ '-' hmem) (by decide)
  · simp only [ha, hb, if_false] at h
    have := natStr_inj _ _ h
    omega

/-- Python `f"{m:02d}"`: pad to width 2 with a leading zero. -/
def pad2 (m : Int) : List Char :=
  if 0 ≤ m ∧ m < 10 then '0' :: intStr m else intStr m

/-- Python `f"{m:02d}"` as a `String`. -/
def pad2S (m : Int) : String := (pad2 m).asString

theorem pad2_chars (m : Int) : ∀ c ∈ pad2 m, charIsDigit c = true ∨ c = '-' := by
  rw [pad2]
  by_cases h : 0 ≤ m ∧ m < 10
  · rw [if_pos h]
    intro c hc
    rcases List.mem_cons.mp hc with hc | hc
    · subst hc; exact Or.inl (by decide)
    · exact intStr_chars m c hc
  · rw [if_neg h]
    exact intStr_chars m

theorem pad2_head_cases (b : Int) (hb : ¬(0 ≤ b ∧ b < 10)) :
    ∃ c t, intStr b = c :: t ∧ c ≠ '0' := by
  rw [intStr]
  by_cases hbneg : b < 0
  · exact ⟨'-', _, by rw [if_pos hbneg], by decide⟩
  · rw [if_neg hbneg]
    obtain ⟨c, t, heq, hc0, _⟩ := natStr_head_pos b.toNat (by omega)
    exact ⟨c, t, heq, hc0⟩

theorem pad2_inj (a b : Int) (h : pad2 a = pad2 b) : a = b := by
  rw [pad2, pad2] at h
  by_cases ha : 0 ≤ a ∧ a < 10 <;> by_cases hb : 0 ≤ b ∧ b < 10
  · rw [if_pos ha, if_pos hb] at h
    exact intStr_inj _ _ (List.cons.injEq .. ▸ h).2
  · exfalso
    rw [if_pos ha, if_neg hb] at h
    obtain ⟨c, t, heq, hc0⟩ := pad2_head_cases b hb
    rw [heq] at h
    exact hc0 ((List.cons.injEq .. ▸ h).1).symm
  · exfalso
    rw [if_neg ha, if_pos hb] at h
    obtain ⟨c, t, heq, hc0⟩ := pad2_head_cases a ha
    rw [heq] at h
    exact hc0 (List.cons.injEq .. ▸ h).1
  · rw [if_neg ha, if_neg hb] at h
    exact intStr_inj _ _ h

/-- The month-column key built by `compute_total_pnl`: Python
`f"{year}-M{month:02d}"` for an integer year. -/
def mkMonth (y m : Int) : List Char := intStr y ++ '-' :: 'M' :: pad2 m

/-- `f"{year}-M{month:02d}"` as a `String`. -/
def monthKey (y m : Int) : String := pyIntStr y ++ "-M" ++ pad2S m

theorem splitAtChar {x : Char} : ∀ (l1 : List Char) {r1 l2 r2 : List Char},
    l1 ++ x :: r1 = l2 ++ x :: r2 → x ∉ l1 → x ∉ l2 → l1 = l2 ∧ r1 = r2 := by
  intro l1
  induction l1 with
  | nil =>
    intro r1 l2 r2 h h1 h2
    cases l2 with
    | nil => simpa using h
    | cons c2 t2 =>
      simp only [List.nil_append, List.cons_append, List.cons.injEq] at h
      exact absurd (h.1 ▸ List.mem_cons_self c2 t2) h2
  | cons c1 t1 ih =>
    intro r1 l2 r2 h h1 h2
    cases l2 with
    | nil =>
      simp only [List.nil_append, List.cons_append, List.cons.injEq] at h
      exact absurd (h.1 ▸ List.mem_cons_self c1 t1) h1
    | cons c2 t2 =>
      simp only [List.cons_append, List.cons.injEq] at h
      obtain ⟨hc, hrest⟩ := h
      have h1' : x ∉ t1 := fun hm => h1 (List.mem_cons_of_mem _ hm)
      have h2' : x ∉ t2 := fun hm => h2 (List.mem_cons_of_mem _ hm)
      obtain ⟨hl, hr⟩ := ih hrest h1' h2'
      exact ⟨by rw [hc, hl], hr⟩

theorem mkMonth_chars (y m : Int) :
    ∀ c ∈ mkMonth y m, charIsDigit c = true ∨ c = '-' ∨ c = 'M' := by
  rw [mkMonth]
  intro c hc
  rcases List.mem_append.mp hc with hc | hc
  · rcases intStr_chars y c hc with h | h
    · exact Or.inl h
    · exact Or.inr (Or.inl h)
  · rcases hc with _ | ⟨_, hc⟩
    · exact Or.inr (Or.inl rfl)
    · rcases hc with _ | ⟨_, hc⟩
      · exact Or.inr (Or.inr rfl)
      · rcases pad2_chars m c hc with h | h
        · exact Or.inl h
        · exact Or.inr (Or.inl h)

theorem mkMonth_inj (y m y' m' : Int) (h : mkMonth y m = mkMonth y' m') :
    y = y' ∧ m = m' := by
  rw [mkMonth, mkMonth] at h
  have hM : ∀ (z : Int), 'M' ∉ intStr z ++ ['-'] := by
    intro z hm
    rcases List.mem_append.mp hm with hm | hm
    · rcases intStr_chars z 'M' hm with hd | hd
      · exact absurd hd (by decide)
      · exact absurd hd (by decide)
    · simp at hm
  have h' : (intStr y ++ ['-']) ++ 'M' :: pad2 m = (intStr y' ++ ['-']) ++ 'M' :: pad2 m' := by
    simpa [List.append_assoc] using h
  obtain ⟨hpre, hsuf⟩ := splitAtChar _ h' (hM y) (hM y')
  have hy : intStr y = intStr y' := (List.append_inj' hpre (by simp)).1
  exact ⟨intStr_inj _ _ hy, pad2_inj _ _ hsuf⟩

theorem natStr_len4 (n : Nat) (h1 : 1000 ≤ n) (h2 : n ≤ 9999) : (natStr n).length = 4 := by
  have e1 := natStr_len_succ n (by omega)
  have e2 := natStr_len_succ (n / 10) (by omega)
  have e3 := natStr_len_succ (n / 10 / 10) (by omega)
  have e4 : (natStr (n / 10 / 10 / 10)).length = 1 := by
    rw [natStr_eq]
    simp [show n / 10 / 10 / 10 < 10 by omega]
  omega

theorem intStr_len4 (y : Int) (h1 : 1000 ≤ y) (h2 : y ≤ 9999) : (intStr y).length = 4 := by
  rw [intStr, if_neg (by omega)]
  exact natStr_len4 y.toNat (by omega) (by omega)

theorem lowerChar_digit (c : Char) (h : charIsDigit c = true) : lowerChar c = c := by
  rw [lowerChar, if_neg]
  rw [charIsDigit, decide_eq_true_eq] at h
  omega

theorem lowerL_eq_self {l : List Char} (h : ∀ c ∈ l, lowerChar c = c) : lowerL l = l := by
  induction l with
  | nil => rfl
  | cons c t ih =>
    rw [lowerL, List.map_cons, h c (List.mem_cons_self c t)]
    have := ih (fun c hc => h c (List.mem_cons_of_mem _ hc))
    rw [lowerL] at this
    rw [this]

theorem lowerL_pad2 (m : Int) : lowerL (pad2 m) = pad2 m := by
  apply lowerL_eq_self
  intro c hc
  rcases pad2_chars m c hc with h | h
  · exact lowerChar_digit c h
  · subst h; decide

-- ===== Python exceptions and values =====

/-- The Python exception kinds the pipeline distinguishes. -/
inductive Exn where
  /-- `ValueError(msg)`. -/
  | valueError (msg : String)
  /-- `DatasetConfigError(msg)` from `data_loader.py`. -/
  | datasetConfigError (msg : String)
  /-- `TypeError(msg)`. -/
  | typeError (msg : String)
  /-- `IndexError(msg)`. -/
  | indexError (msg : String)
  /-- `KeyError(msg)`. -/
  | keyError (msg : String)
  /-- `AttributeError(msg)`, e.g. a mapping method called on a non-mapping. -/
  | attributeError (msg : String)
  /-- a raised model-invocation failure (network/provider error). -/
  | llmFailure
deriving DecidableEq, Repr

/-- A scalar filter value from the extraction JSON (string or number). -/
inductive FVal where
  | vstr (s : String)
  | vint (n : Int)
deriving DecidableEq, Repr

/-- A JSON `month` value: the code checks `isinstance(month, int)`. -/
inductive MVal where
  | mint (n : Int)
  | mstr (s : String)
deriving DecidableEq, Repr

/-- Python truthiness of a filter value (`0` and `""` are falsy). -/
def FVal.truthy : FVal → Bool
  | .vstr s => s ≠ ""
  | .vint n => n ≠ 0

/-- Python `str(v)` for a filter value, used in the answer header `f"{k}={v}"`. -/
def FVal.toStr : FVal → String
  | .vstr s => s
  | .vint n => pyIntStr n

/-- An association list standing for a Python dict (insertion-ordered). -/
abbrev Filters := List (String × FVal)

/-- The JSON value stored under the `filters` key of a parsed extraction
response: besides a mapping, `json.loads` can put `null`, a string, a number
or a list there; the node code raises on those when it calls mapping methods
(`filters.get`, `filters.items()`, item assignment, `in`). -/
inductive FiltersVal where
  | fdict (fs : Filters)
  | fnull
  | fstr (s : String)
  | fint (n : Int)
  | flist (l : List FVal)
deriving DecidableEq, Repr

/-- The Python type name of a `filters` value, as interpolated into
`AttributeError`/`TypeError` texts. -/
def pyTypeName : FiltersVal → String
  | .fdict _ => "dict"
  | .fnull => "NoneType"
  | .fstr _ => "str"
  | .fint _ => "int"
  | .flist _ => "list"

/-- Python truthiness of a `filters` value (empty containers, `None`, `0` and
`""` are falsy). -/
def FiltersVal.truthy : FiltersVal → Bool
  | .fdict fs => ¬fs.isEmpty
  | .fnull => false
  | .fstr s => s ≠ ""
  | .fint n => n ≠ 0
  | .flist l => ¬l.isEmpty

-- ===== The dataset (data_loader.py) =====

/-- One row of the ledger dataset after `get_assets_df`'s coercions:
`profit` numeric with unparseable values as 0.0, `year` numeric with missing
values left as NaN (here `none`), `month` cast to string. `tenant_name` may be
missing (`NaN`), which `get_single_asset` drops via `dropna`. -/
structure Row where
  entity_name : String
  property_name : String
  tenant_name : Option String
  ledger_type : String
  ledger_group : String
  ledger_category : String
  ledger_code : String
  ledger_description : String
  month : String
  quarter : String
  year : Option Int
  profit : ℚ
deriving DecidableEq, Repr

/-- The loaded dataset. -/
abbrev Dataset := List Row

/-- `REQUIRED_COLUMNS` of `data_loader.py`; also the columns of a loaded dataset. -/
def REQUIRED_COLUMNS : List String :=
  ["entity_name", "property_name", "tenant_name", "ledger_type", "ledger_group",
   "ledger_category", "ledger_code", "ledger_description", "month", "quarter",
   "year", "profit"]

/-- `subset[VALUE_COLUMN].sum()`. -/
def sumProfit (df : Dataset) : ℚ := (df.map Row.profit).sum

/-- `_filter_by_property`: case-insensitive containment on `property_name`. -/
def _filter_by_property (df : Dataset) (property_query : String) : Dataset :=
  df.filter (fun r => containsCI r.property_name property_query)

/-- Distinct values preserving first occurrence, as pandas `Series.unique`. -/
def dedupFirst (l : List String) (seen : List String := []) : List String :=
  match l with
  | [] => []
  | x :: t => if x ∈ seen then dedupFirst t seen else x :: dedupFirst t (x :: seen)

/-- Sum of profits grouped by a string key (`groupby(col)[VALUE].sum()`),
keys in ascending order as pandas sorts group keys. -/
def groupSum (pairs : List (String × ℚ)) : List (String × ℚ) :=
  let keys := (dedupFirst (pairs.map Prod.fst)).mergeSort (fun a b => a ≤ b)
  keys.map (fun k => (k, ((pairs.filter (fun p => p.1 = k)).map Prod.snd).sum))

/-- Row counts grouped by a string key (`Series.value_counts()`), descending. -/
def groupCount (keys : List String) : List (String × Nat) :=
  let ks := dedupFirst keys
  (ks.map (fun k => (k, (keys.filter (fun x => x = k)).length))).mergeSort
    (fun a b => b.2 ≤ a.2)

/-- Sort an association list by value descending (`sort_values(ascending=False)`). -/
def sortByValDesc (l : List (String × ℚ)) : List (String × ℚ) :=
  l.mergeSort (fun a b => b.2 ≤ a.2)

/-- Sum of profits grouped by an integer key, keys ascending (`groupby("year")`;
pandas drops NaN group keys). -/
def groupSumInt (pairs : List (Int × ℚ)) : List (Int × ℚ) :=
  let keys := ((pairs.map Prod.fst).eraseDups).mergeSort (fun a b => a ≤ b)
  keys.map (fun k => (k, ((pairs.filter (fun p => p.1 = k)).map Prod.snd).sum))

-- ===== Number formatting (Python f"{x:,.2f}") =====

/-- `round(q * 100)` computed on numerator and denominator: the floor of
`100 q + 1/2` (models Python's rounding in `f"{x:.2f}"`, which differs only on
exact decimal ties). -/
def roundCents (q : ℚ) : Int :=
  (200 * q.num + (q.den : Int)).fdiv (2 * (q.den : Int))

/-- Insert a comma after every third character, counting from the head of a
reversed digit list. -/
def commaRevAux : Nat → List Char → List Char
  | _, [] => []
  | 0, c :: t => ',' :: c :: commaRevAux 2 t
  | Nat.succ k, c :: t => c :: commaRevAux k t

/-- Decimal rendering of a natural number with thousands separators. -/
def natComma (n : Nat) : List Char := (commaRevAux 3 (natStr n).reverse).reverse

/-- Python `f"{q:,.2f}"`: sign, comma-grouped integer part, two decimals. -/
def fmtComma2 (q : ℚ) : String :=
  let c : Int := roundCents q
  let a : Nat := c.natAbs
  (if c < 0 then "-" else "") ++ (natComma (a / 100)).asString ++ "."
    ++ (pad2 ((a % 100 : Nat) : Int)).asString

-- ===== data_loader.py operations =====

/-- The record produced by `get_single_asset`. -/
structure AssetSummary where
  property_name : String
  entity_name : String
  total_records : Nat
  total_profit : ℚ
  tenants : List String
  ledger_totals : List (String × ℚ)
deriving DecidableEq, Repr

/-- `get_single_asset`: empty substring match yields `None`, otherwise a summary
record built from the matching subset. -/
def get_single_asset (df : Dataset) (property_query : String) : Option AssetSummary :=
  let subset := _filter_by_property df property_query
  match subset with
  | [] => none
  | r :: _ =>
    some {
      property_name := r.property_name
      entity_name := r.entity_name
      total_records := subset.length
      total_profit := sumProfit subset
      tenants := dedupFirst (subset.filterMap Row.tenant_name)
      ledger_totals := sortByValDesc (groupSum (subset.map (fun x => (x.ledger_type, x.profit))))
    }

/-- One side of the two-record comparison. -/
structure CompareSide where
  property_name : String
  value : ℚ
  records : Nat
deriving DecidableEq, Repr

/-- The result of `compare_assets_by_price`. -/
structure CompareResult where
  asset_1 : CompareSide
  asset_2 : CompareSide
  difference : ℚ
deriving DecidableEq, Repr

/-- `_aggregate_value` inside `compare_assets_by_price`: raises `ValueError`
when the substring match selects no rows. -/
def _aggregate_value (df : Dataset) (property_query : String) : Except Exn CompareSide :=
  match _filter_by_property df property_query with
  | [] =>
    .error (.valueError ("Property with name like \x27" ++ property_query
      ++ "\x27 not found in dataset."))
  | r :: t =>
    .ok { property_name := r.property_name, value := sumProfit (r :: t),
          records := (r :: t).length }

/-- `compare_assets_by_price`: both sides must match; difference is side 1 minus
side 2. -/
def compare_assets_by_price (df : Dataset) (address1 address2 : String) :
    Except Exn CompareResult := do
  let asset_1 ← _aggregate_value df address1
  let asset_2 ← _aggregate_value df address2
  return { asset_1 := asset_1, asset_2 := asset_2,
           difference := asset_1.value - asset_2.value }

/-- `compute_total_pnl`: optional year filter, then optional month filter (which
requires the year), then the empty-result check, then the sum. A non-integer
`month` value reaches `f"{month:02d}"` and raises the format `ValueError`. -/
def compute_total_pnl (df : Dataset) (year : Option Int) (month : Option MVal) :
    Except Exn ℚ :=
  let subset := match year with
    | some y => df.filter (fun r => r.year == some y)
    | none => df
  match month with
  | none =>
    if subset.isEmpty then
      .error (.valueError ("No financial records found for the period: "
        ++ pyReprOptInt year ++ "."))
    else .ok (sumProfit subset)
  | some m =>
    match year with
    | none =>
      .error (.valueError
        "To filter by month, you must also specify the year (e.g., \x27January 2025\x27).")
    | some y =>
      match m with
      | .mstr _ =>
        .error (.valueError "Unknown format code \x27d\x27 for object of type \x27str\x27")
      | .mint n =>
        let month_str := monthKey y n
        let subset2 := subset.filter (fun r => r.month == month_str)
        if subset2.isEmpty then
          .error (.valueError ("No financial records found for the period: "
            ++ monthKey y n ++ "."))
        else .ok (sumProfit subset2)

-- ===== query_data_flexible =====

/-- Approximate model of Python `str(float)` for a cell value; only used where
no proved claim depends on the exact rendering. -/
def floatStr (q : ℚ) : String :=
  if q.den = 1 then pyIntStr q.num ++ ".0"
  else pyIntStr q.num ++ "/" ++ (natStr q.den).asString

/-- `subset[column].astype(str)` for one row: NaN cells render as `"nan"`. -/
def cellStr (r : Row) (col : String) : String :=
  if col = "entity_name" then r.entity_name
  else if col = "property_name" then r.property_name
  else if col = "tenant_name" then (match r.tenant_name with
    | some s => s
    | none => "nan")
  else if col = "ledger_type" then r.ledger_type
  else if col = "ledger_group" then r.ledger_group
  else if col = "ledger_category" then r.ledger_category
  else if col = "ledger_code" then r.ledger_code
  else if col = "ledger_description" then r.ledger_description
  else if col = "month" then r.month
  else if col = "quarter" then r.quarter
  else if col = "year" then (match r.year with
    | some y => pyIntStr y
    | none => "nan")
  else if col = "profit" then floatStr r.profit
  else ""

/-- One filter applied to one row: string values use case-insensitive
containment on the stringified cell, numbers use exact equality (comparing a
number against a string column is elementwise `False` in pandas). -/
def rowMatches (r : Row) (col : String) (v : FVal) : Bool :=
  match v with
  | .vstr s => containsCI (cellStr r col) s
  | .vint n =>
    if col = "year" then r.year == some n
    else if col = "profit" then r.profit == (n : ℚ)
    else false

/-- The filter loop of `query_data_flexible`: filters applied in insertion
order; keys that are not dataset columns are skipped. -/
def applyFilters (df : Dataset) (filters : Filters) : Dataset :=
  filters.foldl
    (fun subset kv =>
      if kv.1 ∈ REQUIRED_COLUMNS then subset.filter (fun r => rowMatches r kv.1 kv.2)
      else subset)
    df

/-- The `aggregations` section of a flexible-query result. -/
structure Aggregations where
  by_ledger_type : List (String × ℚ)
  by_property : List (String × ℚ)
  by_year : List (Int × ℚ)
deriving DecidableEq, Repr

/-- The `counts` section of a flexible-query result. -/
structure CountsResult where
  total : Nat
  by_ledger_type : List (String × Nat)
  by_property : List (String × Nat)
deriving DecidableEq, Repr

/-- The result dict of `query_data_flexible`; absent keys are `none`. -/
structure QueryResult where
  status : String
  message : Option String := none
  filters : FiltersVal
  count : Nat
  total_profit : Option ℚ := none
  rows : Option (List Row) := none
  showing : Option Nat := none
  total_rows : Option Nat := none
  aggregations : Option Aggregations := none
  counts : Option CountsResult := none
deriving DecidableEq, Repr

/-- The result construction of `query_data_flexible` on the filtered subset
(the `filters` argument is echoed verbatim in the result): an empty subset is
a structured `no_data` value, otherwise count and total profit plus an
action-dependent section. -/
def buildQueryResult (subset : Dataset) (filters : FiltersVal) (action : String)
    (limit : Nat) : QueryResult :=
  if subset.isEmpty then
    { status := "no_data"
      message := some "No records found matching the filters."
      filters := filters
      count := 0 }
  else
    let base : QueryResult :=
      { status := "success"
        filters := filters
        count := subset.length
        total_profit := some (sumProfit subset) }
    if action = "show" then
      let rows_to_return := subset.take limit
      { base with
        rows := some rows_to_return
        showing := some rows_to_return.length
        total_rows := some subset.length }
    else if action = "aggregate" then
      { base with aggregations := some {
          by_ledger_type := groupSum (subset.map (fun r => (r.ledger_type, r.profit))),
          by_property := groupSum (subset.map (fun r => (r.property_name, r.profit))),
          by_year := groupSumInt (subset.filterMap
            (fun r => r.year.map (fun y => (y, r.profit)))) } }
    else if action = "count" then
      { base with counts := some {
          total := subset.length,
          by_ledger_type := groupCount (subset.map Row.ledger_type),
          by_property := groupCount (subset.map Row.property_name) } }
    else base

/-- `query_data_flexible`: `if filters:` guards the filter loop, so a falsy
`filters` value of any type skips filtering (the full frame is used and the
raw value echoed), a truthy non-mapping raises `AttributeError` on
`.items()`, and a mapping is applied key by key (an empty mapping skips the
loop, which equals folding it over nothing). -/
def query_data_flexible (df : Dataset) (filters : FiltersVal) (action : String)
    (limit : Nat) : Except Exn QueryResult :=
  match filters with
  | .fdict fs => .ok (buildQueryResult (applyFilters df fs) filters action limit)
  | v =>
    if v.truthy then
      .error (.attributeError ("\x27" ++ pyTypeName v
        ++ "\x27 object has no attribute \x27items\x27"))
    else .ok (buildQueryResult df v action limit)

/-- Python `sep.join(parts)`. -/
def pyJoin (sep : String) (parts : List String) : String :=
  match parts with
  | [] => ""
  | p :: rest => rest.foldl (fun acc x => acc ++ sep ++ x) p

/-- `summarize_asset_record`: the fixed multi-line asset summary text. -/
def summarize_asset_record (record : AssetSummary) : String :=
  let ls := [
    "Property: " ++ record.property_name,
    "Entity: " ++ record.entity_name,
    "Total records: " ++ pyIntStr record.total_records,
    "Net Profit (P&L): " ++ fmtComma2 record.total_profit]
  let ls := if record.tenants ≠ [] then
      ls ++ ["Tenants: " ++ pyJoin ", " record.tenants]
    else ls
  let ls := if record.ledger_totals ≠ [] then
      ls ++ ["Breakdown by Ledger Type:"]
        ++ record.ledger_totals.map (fun p => "  - " ++ p.1 ++ ": " ++ fmtComma2 p.2)
    else ls
  pyJoin "\n" ls


-- ===== Regex fallback of extract_params (graph_nodes.py lines 132-166) =====

/-- Try to match `202[0-9]-M\d{2}` at the head of the list; on success return
the eight matched characters. -/
def monthTokenAt (l : List Char) : Option (List Char) :=
  match l with
  | '2' :: '0' :: '2' :: d :: '-' :: 'M' :: d1 :: d2 :: _ =>
    if charIsDigit d ∧ charIsDigit d1 ∧ charIsDigit d2 then
      some ['2', '0', '2', d, '-', 'M', d1, d2]
    else none
  | _ => none

/-- `re.search(r"(202[0-9]-M\d{2})", s)`: leftmost match. -/
def findMonthToken : List Char → Option (List Char)
  | [] => none
  | c :: t =>
    match monthTokenAt (c :: t) with
    | some tok => some tok
    | none => findMonthToken t

/-- `int(token.split("-")[0])` for a matched month token `202d-Mxy`. -/
def monthTokenYear (tok : List Char) : Int :=
  match tok with
  | _ :: _ :: _ :: d :: _ => ((2020 + (d.toNat - 48) : Nat) : Int)
  | _ => 0

/-- Try to match `202[0-9]` at the head of the list. -/
def yearAt (l : List Char) : Option Nat :=
  match l with
  | '2' :: '0' :: '2' :: d :: _ => if charIsDigit d then some (2020 + (d.toNat - 48)) else none
  | _ => none

/-- `re.search(r"202[0-9]", s)`: leftmost match, as a number. -/
def findYear : List Char → Option Nat
  | [] => none
  | c :: t =>
    match yearAt (c :: t) with
    | some y => some y
    | none => findYear t

/-- Try to match `[Bb]uilding\s+(\d+)` at the head; return the captured digits
and the remainder after the match. -/
def matchBuildingAt (l : List Char) : Option (List Char × List Char) :=
  match l with
  | b :: 'u' :: 'i' :: 'l' :: 'd' :: 'i' :: 'n' :: 'g' :: rest =>
    if b = 'B' ∨ b = 'b' then
      let ws := rest.takeWhile charIsSpace
      let rest2 := rest.dropWhile charIsSpace
      if ws.isEmpty then none
      else
        let ds := rest2.takeWhile charIsDigit
        let rest3 := rest2.dropWhile charIsDigit
        if ds.isEmpty then none else some (ds, rest3)
    else none
  | _ => none

/-- `re.findall(r"[Bb]uilding\s+(\d+)", s)`: left-to-right, non-overlapping. -/
def findBuildingsAux (fuel : Nat) (l : List Char) : List (List Char) :=
  match fuel with
  | 0 => []
  | fuel + 1 =>
    match l with
    | [] => []
    | c :: t =>
      match matchBuildingAt (c :: t) with
      | some (ds, rest) => ds :: findBuildingsAux fuel rest
      | none => findBuildingsAux fuel t

/-- All captured building numbers of the query, as strings. -/
def buildingNums (s : String) : List String :=
  (findBuildingsAux s.data.length s.data).map List.asString

/-- Try to match `[Tt]enant\s+(\d+)` at the head; return the captured digits. -/
def matchTenantAt (l : List Char) : Option (List Char) :=
  match l with
  | c0 :: 'e' :: 'n' :: 'a' :: 'n' :: 't' :: rest =>
    if c0 = 'T' ∨ c0 = 't' then
      let ws := rest.takeWhile charIsSpace
      let rest2 := rest.dropWhile charIsSpace
      if ws.isEmpty then none
      else
        let ds := rest2.takeWhile charIsDigit
        if ds.isEmpty then none else some ds
    else none
  | _ => none

/-- `re.search(r"[Tt]enant\s+(\d+)", s)`: leftmost match's captured digits. -/
def findTenant : List Char → Option (List Char)
  | [] => none
  | c :: t =>
    match matchTenantAt (c :: t) with
    | some ds => some ds
    | none => findTenant t

/-- The keyword-driven `action` detection of the regex fallback. -/
def detectAction (query_lower : String) : String :=
  if containsAny query_lower ["show", "list", "display", "all rows", "get"] then "show"
  else if containsAny query_lower ["sum", "total", "aggregate"] then "aggregate"
  else if containsAny query_lower ["count", "how many"] then "count"
  else "show"

/-- The `filters["month"]` entry set by the fallback when a month token is
found. -/
def fallbackMonthFilters (q : String) : Filters :=
  match findMonthToken q.data with
  | some tok => [("month", FVal.vstr tok.asString)]
  | none => []

/-- The fallback `year`: derived from the month token's prefix, else the bare
`202[0-9]` match. -/
def fallbackYear (q : String) : Option Int :=
  match findMonthToken q.data with
  | some tok => some (monthTokenYear tok)
  | none => (findYear q.data).map (fun n => (n : Int))

/-- The fallback `addresses`: every building mention. -/
def fallbackAddresses (q : String) : List String :=
  (buildingNums q).map (fun n => "Building " ++ n)

/-- The `filters["property_name"]` entry: the first building mention. -/
def fallbackPropFilters (q : String) : Filters :=
  match buildingNums q with
  | [] => []
  | b :: _ => [("property_name", FVal.vstr ("Building " ++ b))]

/-- The `filters["tenant_name"]` entry. -/
def fallbackTenantFilters (q : String) : Filters :=
  match findTenant q.data with
  | some ds => [("tenant_name", FVal.vstr ("Tenant " ++ ds.asString))]
  | none => []

/-- The whole regex fallback of `extract_params`: month token (setting
`filters.month` and the year) or bare year; building mentions (addresses and
`filters.property_name`); tenant mention; keyword action. The filter entries
are concatenated in the code's dict-insertion order (month, property_name,
tenant_name). -/
def regexFallback (user_query : String) :
    List String × Option Int × Option MVal × Filters × String :=
  (fallbackAddresses user_query,
   fallbackYear user_query,
   none,
   fallbackMonthFilters user_query ++ fallbackPropFilters user_query
     ++ fallbackTenantFilters user_query,
   detectAction (pyLower user_query))

-- ===== Pipeline state and oracles (graph_nodes.py / orchestrator.py) =====

/-- The three strategy prompts handed to the run (each may be missing). -/
structure Strategy where
  intent_system_prompt : Option String := none
  extract_system_prompt : Option String := none
  general_qa_system_prompt : Option String := none
deriving DecidableEq, Repr

/-- Python `if not system_prompt`: missing and empty prompts are both
unconfigured. -/
def promptConfigured : Option String → Bool
  | none => false
  | some s => s ≠ ""

/-- The fields of a successfully JSON-parsed extraction response (each `get`
may find the key missing). -/
structure ParsedFields where
  addresses : Option (List String) := none
  year : Option Int := none
  month : Option MVal := none
  filters : Option FiltersVal := none
  action : Option String := none
deriving DecidableEq, Repr

/-- Oracle for the three model calls of one run: `none` means the call raised;
for the extraction call, the inner `Option` is the outcome of JSON-parsing the
fence-stripped response (`none`: parse failed or the value was not an object). -/
structure LlmBehavior where
  intentResp : Option String := none
  extractResp : Option (Option ParsedFields) := none
  qaResp : Option String := none
deriving DecidableEq, Repr

/-- `state["extracted_params"]`; `filters`/`action` keys are absent on the
`general_qa` shortcut path. -/
structure ExtractedParams where
  addresses : List String
  year : Option Int
  month : Option MVal
  filters : Option FiltersVal
  action : Option String
deriving DecidableEq, Repr

/-- `state["retrieved_data"]`: one intent-keyed payload. -/
inductive RetrievedData where
  | price_comparison (c : CompareResult)
  | asset_details (r : AssetSummary)
  | total_pnl (year : Option Int) (month : Option MVal) (value : ℚ)
  | data_query (q : QueryResult)
  | general_qa
deriving DecidableEq, Repr

/-- The mutable per-invocation state (the `llm` and `strategy` entries are
modelled as explicit node arguments since they are per-run constants). -/
structure AgentState where
  user_query : String
  intent : Option String := none
  extracted_params : Option ExtractedParams := none
  retrieved_data : Option RetrievedData := none
  answer : Option String := none
  error : Option String := none
deriving DecidableEq, Repr

/-- Python truthiness of an optional string (`None` and `""` falsy). -/
def pyTruthyOptStr : Option String → Bool
  | none => false
  | some s => s ≠ ""

/-- Python truthiness of an optional int (`None` and `0` falsy). -/
def pyTruthyOptInt : Option Int → Bool
  | none => false
  | some n => n ≠ 0

/-- Python truthiness of an optional month value. -/
def pyTruthyOptMVal : Option MVal → Bool
  | none => false
  | some (.mint n) => n ≠ 0
  | some (.mstr s) => s ≠ ""

/-- Python `f"{x}"` for an optional string: `None` renders as `"None"`. -/
def pyReprOptStr : Option String → String
  | none => "None"
  | some s => s

-- ===== Node: detect_intent =====

/-- The closed intent set. -/
def validIntents : List String :=
  ["price_comparison", "total_pnl", "asset_details", "general_qa", "data_query"]

/-- `keywords_data_explicit` of `detect_intent`. -/
def keywords_data_explicit : List String :=
  ["show all", "list all", "show rows", "list rows", "display rows",
   "get all", "all rows", "all data", "filter by", "where month",
   "where year", "for month", "for year", "records for"]

/-- `keywords_pnl` of `detect_intent`. -/
def keywords_pnl : List String :=
  ["total profit", "total loss", "total pnl", "sum of", "aggregate"]

/-- `keywords_asset` of `detect_intent`. -/
def keywords_asset : List String :=
  ["building", "property", "tenant", "rent", "asset"]

/-- The keyword failsafe applied when (and only when) the label is
`general_qa`: data phrases, else aggregation phrases, else asset vocabulary. -/
def keywordOverride (query : String) : String :=
  if containsAny query keywords_data_explicit then "data_query"
  else if containsAny query keywords_pnl then "total_pnl"
  else if containsAny query keywords_asset then "asset_details"
  else "general_qa"

/-- `detect_intent`: requires the intent prompt; a failed model call becomes
the label `general_qa`; keyword failsafe; closed-set validation. -/
def detect_intent (strategy : Strategy) (llm : LlmBehavior) (st : AgentState) :
    Except Exn AgentState :=
  let query := pyLower st.user_query
  if ¬promptConfigured strategy.intent_system_prompt then
    .error (.valueError ("Intent system prompt not configured. "
      ++ "Please configure it in Django Admin (Prompt model with type=\x27intent\x27)."))
  else
    let label :=
      match llm.intentResp with
      | some content => pyLower (pyStrip content)
      | none => "general_qa"
    let label := if label = "general_qa" then keywordOverride query else label
    let label := if label ∈ validIntents then label else "general_qa"
    .ok { st with intent := some label }

-- ===== Node: extract_params =====

/-- Python `dict.get` on an insertion-ordered association list. -/
def lookupFilter (fs : Filters) (k : String) : Option FVal :=
  (fs.find? (fun p => p.1 = k)).map Prod.snd

/-- The post-processing of `extract_params` (lines 168-178), outside the
parse guard: when `addresses` is empty, `filters.get("property_name")` is
called — an `AttributeError` on a non-mapping `filters` value — and a truthy
entry is tested for the substring `"Building"` (a `TypeError` for a
non-string value) before the query is re-scanned for building mentions. -/
def postProcessAddresses (user_query : String) (addresses : List String)
    (filters : FiltersVal) : Except Exn (List String) :=
  if addresses.isEmpty then
    match filters with
    | .fdict fs =>
      match lookupFilter fs "property_name" with
      | some v =>
        if v.truthy then
          match v with
          | .vstr prop_name =>
            if strContains prop_name "Building" then
              let all_buildings := buildingNums user_query
              if ¬all_buildings.isEmpty then
                .ok (all_buildings.map (fun n => "Building " ++ n))
              else .ok [prop_name]
            else .ok addresses
          | .vint _ => .error (.typeError "argument of type \x27int\x27 is not iterable")
        else .ok addresses
      | none => .ok addresses
    | v =>
      .error (.attributeError ("\x27" ++ pyTypeName v
        ++ "\x27 object has no attribute \x27get\x27"))
  else .ok addresses

/-- `extract_params`: the `general_qa` shortcut, the required prompt, the
un-guarded model call, the parse-or-fallback, and the post-processing. -/
def extract_params (strategy : Strategy) (llm : LlmBehavior) (st : AgentState) :
    Except Exn AgentState :=
  if st.intent = some "general_qa" then
    .ok { st with
          extracted_params := some
            { addresses := []
              year := none
              month := none
              filters := none
              action := none } }
  else if ¬promptConfigured strategy.extract_system_prompt then
    .error (.valueError ("Extract system prompt not configured. "
      ++ "Please configure it in Django Admin (Prompt model with type=\x27extract\x27)."))
  else
    match llm.extractResp with
    | none => .error .llmFailure
    | some parseOutcome =>
      let parts :=
        match parseOutcome with
        | some parsed =>
          (parsed.addresses.getD [], parsed.year, parsed.month,
           parsed.filters.getD (.fdict []), parsed.action.getD "show")
        | none =>
          match regexFallback st.user_query with
          | (a, y, m, f, act) => (a, y, m, FiltersVal.fdict f, act)
      match parts with
      | (addresses, year, month, filters, action) =>
        match postProcessAddresses st.user_query addresses filters with
        | .error e => .error e
        | .ok addresses2 =>
          .ok { st with
                extracted_params := some
                  { addresses := addresses2
                    year := year
                    month := month
                    filters := some filters
                    action := some action } }

-- ===== Node: retrieve_data =====

/-- The default for `state.get("extracted_params") or {}` (every field read
with a defaulting `get`). -/
def emptyParams : ExtractedParams :=
  { addresses := [], year := none, month := none, filters := none, action := none }

/-- The `except` clauses of `retrieve_data`: `DatasetConfigError` gets the
`Data Config Error:` prefix, `ValueError` is written verbatim, anything else
gets the `System Error:` prefix. -/
def exnToStateError (st : AgentState) (e : Exn) : AgentState :=
  match e with
  | .datasetConfigError m => { st with error := some ("Data Config Error: " ++ m) }
  | .valueError m => { st with error := some m }
  | .typeError m => { st with error := some ("System Error: " ++ m) }
  | .indexError m => { st with error := some ("System Error: " ++ m) }
  | .keyError m => { st with error := some ("System Error: " ++ m) }
  | .attributeError m => { st with error := some ("System Error: " ++ m) }
  | .llmFailure => { st with error := some "System Error: model call failed" }

/-- Python `key not in v`: key lookup on a mapping, substring test on a
string, membership on a list, and a `TypeError` on the non-iterable values. -/
def pyNotIn (key : String) (v : FiltersVal) : Except Exn Bool :=
  match v with
  | .fdict fs => .ok (lookupFilter fs key = none)
  | .fstr s => .ok (¬strContains s key)
  | .flist l => .ok (¬l.contains (FVal.vstr key))
  | .fnull => .error (.typeError "argument of type \x27NoneType\x27 is not iterable")
  | .fint _ => .error (.typeError "argument of type \x27int\x27 is not iterable")

/-- Python dict assignment `fs[k] = v`: replace in place or append. -/
def dictSet (fs : Filters) (k : String) (v : FVal) : Filters :=
  if lookupFilter fs k = none then fs ++ [(k, v)]
  else fs.map (fun p => if p.1 = k then (k, v) else p)

/-- Python `v[key] = value` on a `filters` value: dict assignment on a
mapping, a `TypeError` on everything else. -/
def pySetItem (v : FiltersVal) (key : String) (value : FVal) : Except Exn FiltersVal :=
  match v with
  | .fdict fs => .ok (.fdict (dictSet fs key value))
  | .fnull => .error (.typeError "\x27NoneType\x27 object does not support item assignment")
  | .fstr _ => .error (.typeError "\x27str\x27 object does not support item assignment")
  | .fint _ => .error (.typeError "\x27int\x27 object does not support item assignment")
  | .flist _ => .error (.typeError "list indices must be integers or slices, not str")

/-- `if year is not None and "year" not in filters: filters["year"] = year`
(short-circuit: a `None` year skips the `not in` test entirely). -/
def enrichYear (filters : FiltersVal) (year : Option Int) : Except Exn FiltersVal :=
  match year with
  | some y =>
    match pyNotIn "year" filters with
    | .error e => .error e
    | .ok b => if b then pySetItem filters "year" (.vint y) else .ok filters
  | none => .ok filters

/-- The month line of the enrichment: an integer month is rendered as
`f"{year}-M{month:02d}"` with the *optional* year (`None` included)
interpolated, a string month is stored as is. -/
def enrichMonth (filters : FiltersVal) (year : Option Int) (month : Option MVal) :
    Except Exn FiltersVal :=
  match month with
  | some m =>
    match pyNotIn "month" filters with
    | .error e => .error e
    | .ok b =>
      if b then
        match m with
        | .mint n =>
          pySetItem filters "month" (.vstr (pyReprOptInt year ++ "-M" ++ pad2S n))
        | .mstr s => pySetItem filters "month" (.vstr s)
      else .ok filters
  | none => .ok filters

/-- The year/month filter enrichment of the `data_query` branch. The `not in`
tests and item assignments raise on non-mapping `filters` values exactly as
in Python. -/
def enrichFilters (filters : FiltersVal) (year : Option Int) (month : Option MVal) :
    Except Exn FiltersVal :=
  match enrichYear filters year with
  | .error e => .error e
  | .ok filters => enrichMonth filters year month

/-- `retrieve_data`: dispatch on the intent, translate raised exceptions into
`state.error` per `exnToStateError`, otherwise store the payload. -/
def retrieve_data (df : Dataset) (st : AgentState) : AgentState :=
  let params := st.extracted_params.getD emptyParams
  let addresses := params.addresses
  let year := params.year
  let month := params.month
  if st.intent = some "price_comparison" then
    if addresses.length < 2 then
      { st with error := some "To compare, I need two property names." }
    else
      match compare_assets_by_price df (addresses.getD 0 "") (addresses.getD 1 "") with
      | .ok data => { st with retrieved_data := some (.price_comparison data) }
      | .error e => exnToStateError st e
  else if st.intent = some "asset_details" then
    if addresses.isEmpty then
      { st with error := some "I couldn\x27t identify the property name." }
    else
      match get_single_asset df (addresses.getD 0 "") with
      | none =>
        { st with error := some ("Property \x27" ++ addresses.getD 0 "" ++ "\x27 not found.") }
      | some record => { st with retrieved_data := some (.asset_details record) }
  else if st.intent = some "total_pnl" then
    match compute_total_pnl df year month with
    | .ok total => { st with retrieved_data := some (.total_pnl year month total) }
    | .error e => exnToStateError st e
  else if st.intent = some "data_query" then
    match enrichFilters (params.filters.getD (.fdict [])) year month with
    | .error e => exnToStateError st e
    | .ok filters =>
      match query_data_flexible df filters (params.action.getD "show") 200 with
      | .error e => exnToStateError st e
      | .ok qr => { st with retrieved_data := some (.data_query qr) }
  else if st.intent = some "general_qa" then
    { st with retrieved_data := some .general_qa }
  else
    { st with error := some ("Unknown intent: " ++ pyReprOptStr st.intent) }

-- ===== Node: compute_answer =====

/-- `calendar.month_name` (index 0 is the empty string). -/
def monthNames : List String :=
  ["", "January", "February", "March", "April", "May", "June", "July",
   "August", "September", "October", "November", "December"]

/-- `calendar.month_name[n]` with Python list indexing (negative indexes wrap;
out of range raises `IndexError`). -/
def calendarMonthName (n : Int) : Except Exn String :=
  if 0 ≤ n ∧ n < 13 then .ok (monthNames.getD n.toNat "")
  else if -13 ≤ n ∧ n < 0 then .ok (monthNames.getD (13 + n).toNat "")
  else .error (.indexError "list index out of range")

/-- `better = a1_name if diff > 0 else a2_name`. -/
def comparisonBetter (comp : CompareResult) : String :=
  if comp.difference > 0 then comp.asset_1.property_name
  else comp.asset_2.property_name

/-- Python `abs`. -/
def absQ (q : ℚ) : ℚ := if q < 0 then -q else q

/-- The comparison answer template of `compute_answer`. -/
def comparisonAnswer (comp : CompareResult) : String :=
  "**Comparison Result:**\n\n* **" ++ comp.asset_1.property_name ++ "**: "
    ++ fmtComma2 comp.asset_1.value ++ " profit\n* **"
    ++ comp.asset_2.property_name ++ "**: " ++ fmtComma2 comp.asset_2.value
    ++ " profit\n\nThe property **" ++ comparisonBetter comp ++ "** generated "
    ++ fmtComma2 (absQ comp.difference) ++ " more profit."

/-- `", ".join(f"{k}={v}" ...)` for the query-result header. -/
def filterDesc (filters : Filters) : String :=
  pyJoin ", " (filters.map (fun kv => kv.1 ++ "=" ++ kv.2.toStr))

/-- `if filters:` then `filters.items()` in the answer header: a truthy
non-mapping raises `AttributeError` (tested by `compute_answer` before the
rendering); falsy values of any type skip the filter description. -/
def filtersRaisesOnItems : FiltersVal → Bool
  | .fdict _ => false
  | v => v.truthy

/-- The answer header of a data-query result for the non-raising `filters`
values: a truthy mapping is rendered `k=v` comma-joined, anything falsy gives
the plain header. -/
def queryHeader : FiltersVal → String
  | .fdict fs =>
    if ¬fs.isEmpty then "**Query Results** (Filters: " ++ filterDesc fs ++ ")\n"
    else "**Query Results**\n"
  | _ => "**Query Results**\n"

/-- `important_cols` of the data-query rendering. -/
def important_cols : List String :=
  ["property_name", "tenant_name", "ledger_type", "ledger_description",
   "month", "year", "profit", "entity_name", "ledger_category"]

/-- The displayed columns: important ones first, then the rest (the Python
code iterates a `set` here; the fixed schema makes the membership tests exact
while the tail order is modelled as column order). -/
def displayCols : List String :=
  let important := important_cols.filter (fun c => c ∈ REQUIRED_COLUMNS)
  important ++ REQUIRED_COLUMNS.filter (fun c => ¬important.contains c)

/-- One table cell: `profit` formatted to two decimals, missing/NaN as `-`. -/
def rowCellDisplay (row : Row) (col : String) : String :=
  if col = "profit" then fmtComma2 row.profit
  else if col = "tenant_name" then
    match row.tenant_name with
    | none => "-"
    | some s => if s = "nan" then "-" else s
  else if col = "year" then
    match row.year with
    | none => "-"
    | some y => pyIntStr y
  else
    let v := cellStr row col
    if v = "nan" then "-" else v

/-- One markdown table row. -/
def renderRow (row : Row) : String :=
  "| " ++ pyJoin " | " (displayCols.map (rowCellDisplay row)) ++ " |"

/-- The data-query rendering of `compute_answer` (lines 317-415). -/
def dataQueryAnswer (qr : QueryResult) : String :=
  if qr.status = "no_data" then qr.message.getD "No data found."
  else
    let parts := [queryHeader qr.filters]
    let parts := parts ++
      ["ğŸ“Š **Summary:**",
       "- Total matching records: **" ++ (natComma qr.count).asString ++ "**",
       "- Total Profit/Loss: **" ++ fmtComma2 (qr.total_profit.getD 0) ++ "**\n"]
    let parts :=
      match qr.rows with
      | some rows =>
        let showing := qr.showing.getD 0
        let total := qr.total_rows.getD 0
        let parts := parts ++
          ["ğŸ“‹ **Data Rows** (showing " ++ pyIntStr showing
            ++ " of " ++ pyIntStr total ++ "):\n"]
        let parts :=
          if ¬rows.isEmpty then
            parts ++ ["| " ++ pyJoin " | " displayCols ++ " |",
                      "| " ++ pyJoin " | " (displayCols.map (fun _ => "---")) ++ " |"]
              ++ rows.map renderRow
          else parts
        if total > showing then
          parts ++ ["\n*...and " ++ pyIntStr ((total : Int) - (showing : Int)) ++ " more rows*"]
        else parts
      | none => parts
    let parts :=
      match qr.aggregations with
      | some aggs =>
        let parts := parts ++ ["\nğŸ“ˆ **Aggregations:**"]
        let parts :=
          if ¬aggs.by_ledger_type.isEmpty then
            parts ++ ["\n**By Ledger Type:**"]
              ++ (sortByValDesc aggs.by_ledger_type).map
                  (fun kv => "- " ++ kv.1 ++ ": " ++ fmtComma2 kv.2)
          else parts
        if ¬aggs.by_property.isEmpty then
          parts ++ ["\n**By Property:**"]
            ++ ((sortByValDesc aggs.by_property).take 10).map
                (fun kv => "- " ++ kv.1 ++ ": " ++ fmtComma2 kv.2)
        else parts
      | none => parts
    let parts :=
      match qr.counts with
      | some counts =>
        let parts := parts ++
          ["\nğŸ“Š **Counts:**",
           "- Total records: " ++ (natComma counts.total).asString]
        if ¬counts.by_ledger_type.isEmpty then
          parts ++ ["\n**By Ledger Type:**"]
            ++ (counts.by_ledger_type.mergeSort (fun a b => b.2 ≤ a.2)).map
                (fun kv => "- " ++ kv.1 ++ ": " ++ (natComma kv.2).asString)
        else parts
      | none => parts
    pyJoin "\n" parts

/-- The time-frame phrase of the `total_pnl` answer, including the Python
truthiness tests `if yr and mn` / `elif yr` and the `calendar.month_name`
lookup that raises on an out-of-range integer or a string month. -/
def pnlTimeFrame (yr : Option Int) (mn : Option MVal) : Except Exn String :=
  match yr, mn with
  | some y, some m =>
    if y ≠ 0 ∧ pyTruthyOptMVal (some m) then
      match m with
      | .mint n => (calendarMonthName n).map (fun mname => "for " ++ mname ++ " " ++ pyIntStr y)
      | .mstr _ => .error (.typeError "list indices must be integers or slices, not str")
    else if y ≠ 0 then .ok ("for the full year " ++ pyIntStr y)
    else .ok "across all recorded dates"
  | some y, none =>
    if y ≠ 0 then .ok ("for the full year " ++ pyIntStr y)
    else .ok "across all recorded dates"
  | none, _ => .ok "across all recorded dates"

/-- `compute_answer`: pass through on a pre-existing error, then one template
per intent; `general_qa` makes the sole model call here after requiring its
prompt. A payload/intent mismatch reproduces the corresponding Python
`KeyError`/`TypeError`/default-dict behaviour. -/
def compute_answer (strategy : Strategy) (llm : LlmBehavior) (st : AgentState) :
    Except Exn AgentState :=
  if st.error.isSome then .ok st
  else if st.intent = some "price_comparison" then
    match st.retrieved_data with
    | some (.price_comparison comp) =>
      .ok { st with answer := some (comparisonAnswer comp) }
    | _ => .error (.keyError "asset_1")
  else if st.intent = some "asset_details" then
    match st.retrieved_data with
    | some (.asset_details record) =>
      .ok { st with answer := some ("Here is the financial summary for the requested property:\n\n"
        ++ summarize_asset_record record) }
    | _ => .error (.typeError "unsupported format string passed to NoneType.__format__")
  else if st.intent = some "total_pnl" then
    match st.retrieved_data with
    | some (.total_pnl yr mn val) =>
      match pnlTimeFrame yr mn with
      | .ok tf =>
        .ok { st with answer := some ("The total recorded **Profit/Loss** " ++ tf
          ++ " is: **" ++ fmtComma2 val ++ "**") }
      | .error e => .error e
    | _ =>
      .ok { st with answer := some ("The total recorded **Profit/Loss** across all recorded dates is: **"
        ++ fmtComma2 0 ++ "**") }
  else if st.intent = some "data_query" then
    match st.retrieved_data with
    | some (.data_query qr) =>
      if qr.status ≠ "no_data" ∧ filtersRaisesOnItems qr.filters = true then
        .error (.attributeError ("\x27" ++ pyTypeName qr.filters
          ++ "\x27 object has no attribute \x27items\x27"))
      else .ok { st with answer := some (dataQueryAnswer qr) }
    | _ =>
      .ok { st with answer := some (dataQueryAnswer
        { status := "", filters := .fdict [], count := 0 }) }
  else if st.intent = some "general_qa" then
    if ¬promptConfigured strategy.general_qa_system_prompt then
      .error (.valueError ("General Q&A system prompt not configured. "
        ++ "Please configure it in Django Admin (Prompt model with type=\x27general_qa\x27)."))
    else
      match llm.qaResp with
      | none => .error .llmFailure
      | some content => .ok { st with answer := some content }
  else .ok st

-- ===== Branch and terminal nodes, pipeline, orchestrator =====

/-- `route_after_retrieval`. -/
def route_after_retrieval (st : AgentState) : String :=
  if pyTruthyOptStr st.error then "end_with_error" else "compute_answer"

/-- `end_with_error`: copy the error text into the answer when no answer
exists yet. -/
def end_with_error (st : AgentState) : AgentState :=
  if pyTruthyOptStr st.error ∧ ¬pyTruthyOptStr st.answer then
    { st with answer := st.error }
  else st

/-- The initial state built by `run_agent`: `(user_query or "").strip()`. -/
def initialState (user_query : String) : AgentState :=
  { user_query := pyStrip user_query }

/-- The compiled graph of `build_graph`: the linear chain, the one conditional
branch after retrieval, and the chosen terminal node. The returned string
names the terminal node that executed; an `error` result is an exception that
escaped a node (aborting the run with no terminal node). -/
def runPipeline (df : Dataset) (strategy : Strategy) (llm : LlmBehavior)
    (user_query : String) : Except Exn (String × AgentState) := do
  let st1 ← detect_intent strategy llm (initialState user_query)
  let st2 ← extract_params strategy llm st1
  let st3 := retrieve_data df st2
  if route_after_retrieval st3 = "end_with_error" then
    return ("end_with_error", end_with_error st3)
  else
    let st4 ← compute_answer strategy llm st3
    return ("compute_answer", st4)

/-- The diagnostic snapshot returned by `run_agent`. -/
structure Diag where
  intent : Option String
  extracted_params : Option ExtractedParams
  retrieved_data : Option RetrievedData
  error : Option String
deriving DecidableEq, Repr

/-- `run_agent` (orchestrator.py): run the graph, default the answer to `""`,
fall back to the apology text when an error exists and the answer is falsy. -/
def run_agent (df : Dataset) (strategy : Strategy) (llm : LlmBehavior)
    (user_query : String) : Except Exn (String × Diag) := do
  let (_, st) ← runPipeline df strategy llm user_query
  let answer := st.answer.getD ""
  let answer :=
    if answer = "" ∧ pyTruthyOptStr st.error then
      "Sorry, I couldn\x27t complete your request: " ++ st.error.getD ""
    else answer
  return (answer,
    { intent := st.intent, extracted_params := st.extracted_params,
      retrieved_data := st.retrieved_data, error := st.error })

-- ===== Shared lemmas =====

theorem str_ne_empty_iff (s : String) : s ≠ "" ↔ s.data ≠ [] := by
  constructor
  · intro h hd
    exact h (String.ext hd)
  · intro h he
    subst he
    exact h rfl

theorem str_append_ne_empty_left (s t : String) (h : s ≠ "") : s ++ t ≠ "" := by
  rw [str_ne_empty_iff] at h ⊢
  rw [String.data_append]
  intro hc
  exact h (List.append_eq_nil.mp hc).1

theorem foldl_join_len (sep : String) :
    ∀ (rest : List String) (acc : String),
      acc.length ≤ (rest.foldl (fun a x => a ++ sep ++ x) acc).length := by
  intro rest
  induction rest with
  | nil => intro acc; exact Nat.le_refl _
  | cons x t ih =>
    intro acc
    calc acc.length ≤ (acc ++ sep ++ x).length := by
          simp [String.length_append]; omega
      _ ≤ _ := ih (acc ++ sep ++ x)

theorem pyJoin_ne_empty (sep p : String) (rest : List String) (hp : p ≠ "") :
    pyJoin sep (p :: rest) ≠ "" := by
  rw [pyJoin]
  intro h
  have h1 := foldl_join_len sep rest p
  rw [h] at h1
  have h2 : 0 < p.length := by
    rw [str_ne_empty_iff] at hp
    cases hd : p.data with
    | nil => exact absurd hd hp
    | cons c t => rw [String.length, hd]; simp
  have h3 : ("" : String).length = 0 := rfl
  omega

theorem applyFilters_cons (df : Dataset) (kv : String × FVal) (t : Filters) :
    applyFilters df (kv :: t) =
      applyFilters
        (if kv.1 ∈ REQUIRED_COLUMNS then df.filter (fun r => rowMatches r kv.1 kv.2) else df)
        t := by
  rw [applyFilters, List.foldl_cons]
  by_cases hk : kv.1 ∈ REQUIRED_COLUMNS
  · rw [if_pos hk]; rfl
  · rw [if_neg hk]; rfl

theorem applyFilters_sub : ∀ (fs : Filters) (df : Dataset), ∀ r ∈ applyFilters df fs, r ∈ df := by
  intro fs
  induction fs with
  | nil => intro df r hr; exact hr
  | cons kv t ih =>
    intro df r hr
    rw [applyFilters_cons] at hr
    by_cases hk : kv.1 ∈ REQUIRED_COLUMNS
    · rw [if_pos hk] at hr
      have := ih (df.filter (fun r => rowMatches r kv.1 kv.2)) r hr
      exact List.mem_of_mem_filter this
    · rw [if_neg hk] at hr
      exact ih df r hr

theorem applyFilters_append_single (df : Dataset) (fs : Filters) (kv : String × FVal) :
    applyFilters df (fs ++ [kv]) =
      if kv.1 ∈ REQUIRED_COLUMNS then
        (applyFilters df fs).filter (fun r => rowMatches r kv.1 kv.2)
      else applyFilters df fs := by
  rw [applyFilters, List.foldl_append]
  rfl

theorem applyFilters_known : ∀ (fs : Filters) (df : Dataset),
    applyFilters df (fs.filter (fun kv => decide (kv.1 ∈ REQUIRED_COLUMNS)))
      = applyFilters df fs := by
  intro fs
  induction fs with
  | nil => intro df; rfl
  | cons kv t ih =>
    intro df
    rw [List.filter_cons]
    by_cases hk : kv.1 ∈ REQUIRED_COLUMNS
    · rw [if_pos (show decide (kv.1 ∈ REQUIRED_COLUMNS) = true from decide_eq_true hk)]
      rw [applyFilters_cons, applyFilters_cons]
      exact ih _
    · rw [if_neg (show ¬decide (kv.1 ∈ REQUIRED_COLUMNS) = true from
        fun hc => hk (of_decide_eq_true hc))]
      rw [applyFilters_cons, if_neg hk]
      exact ih df

-- ===== Claim C4 =====

/-- The message of the month-without-year `ValueError`. -/
def monthRequiresYearMsg : String :=
  "To filter by month, you must also specify the year (e.g., \x27January 2025\x27)."

/-- Python `s.startswith(p)`. -/
def strStartsWith (s p : String) : Bool := p.data.isPrefixOf s.data

/-- C4: calling `compute_total_pnl` with a month but no year fails with the
user-input `ValueError` whose message asks for the year; `retrieve_data`
catches it and writes the message to `state.error` verbatim — it contains the
word `year` and does not carry the `System Error` prefix — and never crashes
(the node returns a state rather than propagating). -/
theorem c4_month_without_year (df : Dataset) (m : MVal) (st : AgentState)
    (p : ExtractedParams)
    (hintent : st.intent = some "total_pnl")
    (hp : st.extracted_params = some p)
    (hyear : p.year = none) (hmonth : p.month = some m) :
    compute_total_pnl df none (some m) = .error (.valueError monthRequiresYearMsg)
    ∧ retrieve_data df st = { st with error := some monthRequiresYearMsg }
    ∧ strContains monthRequiresYearMsg "year" = true
    ∧ strStartsWith monthRequiresYearMsg "System Error" = false := by
  have hc : compute_total_pnl df none (some m)
      = Except.error (Exn.valueError monthRequiresYearMsg) := rfl
  refine ⟨hc, ?_, by decide, by decide⟩
  rw [retrieve_data]
  simp [hintent, hp, hyear, hmonth, hc, exnToStateError]

/-- Concrete extracted parameters: month 3, no year. -/
def c4params : ExtractedParams :=
  { addresses := [], year := none, month := some (.mint 3),
    filters := some (.fdict []), action := some "aggregate" }

/-- Concrete state entering retrieval with intent `total_pnl`. -/
def c4state : AgentState :=
  { user_query := "total pnl for March", intent := some "total_pnl",
    extracted_params := some c4params }

/-- Witness for C4 at month 3, no year, empty dataset. -/
theorem c4_month_without_year_witness :
    compute_total_pnl [] none (some (MVal.mint 3))
      = .error (.valueError monthRequiresYearMsg)
    ∧ retrieve_data [] c4state = { c4state with error := some monthRequiresYearMsg }
    ∧ strContains monthRequiresYearMsg "year" = true
    ∧ strStartsWith monthRequiresYearMsg "System Error" = false :=
  c4_month_without_year [] (MVal.mint 3) c4state c4params rfl rfl rfl rfl

-- ===== Claim C7 =====

/-- The filtered row set of `compute_total_pnl` for a given year and optional
integer month (exactly the two filters the function applies). -/
def pnlRows (df : Dataset) (y : Int) (m : Option Int) : Dataset :=
  let s := df.filter (fun r => r.year == some y)
  match m with
  | none => s
  | some n => s.filter (fun r => r.month == monthKey y n)

/-- The `No financial records found` message for a period rendering. -/
def noRecordsMsg (period : String) : String :=
  "No financial records found for the period: " ++ period ++ "."

/-- C7: whenever the year filter (or the year-and-month filters) of
`compute_total_pnl` selects no rows, the function raises a `ValueError` whose
message names the requested period — it returns no value at all, in particular
never `0.0`. -/
theorem c7_empty_period_error (df : Dataset) (y : Int) (m : Option Int)
    (h : pnlRows df y m = []) :
    compute_total_pnl df (some y) (m.map MVal.mint)
      = .error (.valueError (noRecordsMsg
          (match m with
           | none => pyIntStr y
           | some n => monthKey y n)))
    ∧ ∀ q : ℚ, compute_total_pnl df (some y) (m.map MVal.mint) ≠ .ok q := by
  have hmain : compute_total_pnl df (some y) (m.map MVal.mint)
      = .error (.valueError (noRecordsMsg
          (match m with
           | none => pyIntStr y
           | some n => monthKey y n))) := by
    cases m with
    | none =>
      rw [pnlRows] at h
      have hiso : (List.filter (fun r => r.year == some y) df).isEmpty = true := by
        rw [List.isEmpty_iff]; exact h
      rw [compute_total_pnl.eq_def]
      simp only [Option.map_none']
      rw [if_pos hiso]
      rfl
    | some n =>
      rw [pnlRows] at h
      have hiso : (List.filter (fun r => r.month == monthKey y n)
          (List.filter (fun r => r.year == some y) df)).isEmpty = true := by
        rw [List.isEmpty_iff]; exact h
      rw [compute_total_pnl.eq_def]
      simp only [Option.map_some']
      rw [if_pos hiso]
      rfl
  exact ⟨hmain, fun q hq => by rw [hmain] at hq; exact Except.noConfusion hq⟩

/-- Witness for C7: an empty dataset and the year 2023 (no month). -/
theorem c7_empty_period_error_witness :
    compute_total_pnl [] (some 2023) none
      = .error (.valueError (noRecordsMsg (pyIntStr 2023)))
    ∧ ∀ q : ℚ, compute_total_pnl [] (some 2023) none ≠ .ok q :=
  c7_empty_period_error [] 2023 none rfl

-- ===== Claim C5 =====

/-- The not-found message of `_aggregate_value`. -/
def notFoundMsg (property_query : String) : String :=
  "Property with name like \x27" ++ property_query ++ "\x27 not found in dataset."

/-- C5: in the two-record comparison, a side whose case-insensitive substring
match selects zero rows makes the whole operation fail with the property-not-
found `ValueError` (no partial result — the result type is the error alone);
when both sides match, the result carries both canonical names (first matching
row), totals, record counts, and the signed difference side 1 minus side 2. -/
theorem c5_compare_requires_both (df : Dataset) (a b : String) :
    (_filter_by_property df a = [] →
      compare_assets_by_price df a b = .error (.valueError (notFoundMsg a)))
    ∧ (∀ r t, _filter_by_property df a = r :: t → _filter_by_property df b = [] →
        compare_assets_by_price df a b = .error (.valueError (notFoundMsg b)))
    ∧ (∀ r t r2 t2, _filter_by_property df a = r :: t →
        _filter_by_property df b = r2 :: t2 →
        compare_assets_by_price df a b = .ok
          { asset_1 := { property_name := r.property_name,
                         value := sumProfit (r :: t), records := (r :: t).length }
            asset_2 := { property_name := r2.property_name,
                         value := sumProfit (r2 :: t2), records := (r2 :: t2).length }
            difference := sumProfit (r :: t) - sumProfit (r2 :: t2) }) := by
  refine ⟨?_, ?_, ?_⟩
  · intro ha
    rw [compare_assets_by_price, _aggregate_value, ha]
    rfl
  · intro r t ha hb
    rw [compare_assets_by_price, _aggregate_value, ha]
    show (_aggregate_value df b).bind _ = _
    rw [_aggregate_value, hb]
    rfl
  · intro r t r2 t2 ha hb
    rw [compare_assets_by_price, _aggregate_value, ha]
    show (_aggregate_value df b).bind _ = _
    rw [_aggregate_value, hb]
    rfl

/-- A dataset row used by concrete witnesses. -/
def rowB17 : Row where
  entity_name := "Entity 1"
  property_name := "Building 17"
  tenant_name := some "Tenant 1"
  ledger_type := "revenue"
  ledger_group := "g"
  ledger_category := "c"
  ledger_code := "42"
  ledger_description := "rent income"
  month := "2025-M01"
  quarter := "Q1"
  year := some 2025
  profit := 1000

/-- Witness for C5: `Building 999` matches nothing in a one-row dataset. -/
theorem c5_compare_requires_both_witness :
    compare_assets_by_price [rowB17] "Building 17" "Building 999"
      = .error (.valueError (notFoundMsg "Building 999")) :=
  (c5_compare_requires_both [rowB17] "Building 17" "Building 999").2.1
    rowB17 [] (by decide) (by decide)

-- ===== Claim C8 =====

/-- C8: the flexible query ignores filter keys that are not dataset columns —
its result equals the one computed from the known-column filters alone, except
that the reported `filters` entry is the original mapping; and when the applied
filters match no rows, it returns (a mapping raises nothing) the `no_data`
record carrying the original filters unchanged, count 0, and no
rows/aggregations/counts section. -/
theorem c8_flexible_unknown_and_nodata (df : Dataset) (filters : Filters)
    (action : String) (limit : Nat) :
    (∃ qr, query_data_flexible df
        (.fdict (filters.filter (fun kv => decide (kv.1 ∈ REQUIRED_COLUMNS)))) action limit
        = .ok qr
      ∧ query_data_flexible df (.fdict filters) action limit
        = .ok { qr with filters := .fdict filters })
    ∧ (applyFilters df filters = [] →
        query_data_flexible df (.fdict filters) action limit
          = .ok { status := "no_data"
                  message := some "No records found matching the filters."
                  filters := .fdict filters
                  count := 0 }) := by
  constructor
  · refine ⟨buildQueryResult
      (applyFilters df (filters.filter (fun kv => decide (kv.1 ∈ REQUIRED_COLUMNS))))
      (.fdict (filters.filter (fun kv => decide (kv.1 ∈ REQUIRED_COLUMNS))))
      action limit, rfl, ?_⟩
    have hq : query_data_flexible df (.fdict filters) action limit
        = .ok (buildQueryResult (applyFilters df filters) (.fdict filters) action limit) := rfl
    rw [hq]
    refine congrArg Except.ok ?_
    rw [buildQueryResult, buildQueryResult, applyFilters_known]
    by_cases he : (applyFilters df filters).isEmpty
    · rw [if_pos he, if_pos he]
    · rw [if_neg he, if_neg he]
      by_cases hs : action = "show"
      · rw [if_pos hs, if_pos hs]
      · rw [if_neg hs, if_neg hs]
        by_cases hag : action = "aggregate"
        · rw [if_pos hag, if_pos hag]
        · rw [if_neg hag, if_neg hag]
          by_cases hco : action = "count"
          · rw [if_pos hco, if_pos hco]
          · rw [if_neg hco, if_neg hco]
  · intro h
    have hq : query_data_flexible df (.fdict filters) action limit
        = .ok (buildQueryResult (applyFilters df filters) (.fdict filters) action limit) := rfl
    rw [hq, buildQueryResult, if_pos (by rw [List.isEmpty_iff]; exact h)]

/-- Witness for C8: a one-row dataset, one unknown key, one unmatchable month. -/
theorem c8_flexible_unknown_and_nodata_witness :
    (∃ qr, query_data_flexible [rowB17]
        (.fdict ([("bogus", FVal.vstr "x"), ("month", FVal.vstr "zzz")].filter
          (fun kv => decide (kv.1 ∈ REQUIRED_COLUMNS)))) "show" 100 = .ok qr
      ∧ query_data_flexible [rowB17]
          (.fdict [("bogus", FVal.vstr "x"), ("month", FVal.vstr "zzz")]) "show" 100
        = .ok { qr with
                filters := .fdict [("bogus", FVal.vstr "x"), ("month", FVal.vstr "zzz")] })
    ∧ query_data_flexible [rowB17]
        (.fdict [("bogus", FVal.vstr "x"), ("month", FVal.vstr "zzz")]) "show" 100
      = .ok { status := "no_data"
              message := some "No records found matching the filters."
              filters := .fdict [("bogus", FVal.vstr "x"), ("month", FVal.vstr "zzz")]
              count := 0 } := by
  have h := c8_flexible_unknown_and_nodata [rowB17]
    [("bogus", FVal.vstr "x"), ("month", FVal.vstr "zzz")] "show" 100
  exact ⟨h.1, h.2 (by decide)⟩

-- ===== Claim C9 =====

theorem str_append_assoc (a b c : String) : a ++ b ++ c = a ++ (b ++ c) :=
  String.ext (by simp [String.data_append])

/-- C9: for a result of the two-record comparison, the composed text names the
first property exactly when the difference is strictly positive; with equal
profit totals the difference is zero and the answer names the second property
as the one that "generated 0.00 more profit". -/
theorem c9_equal_totals_names_second (df : Dataset) (a b : String)
    (c : CompareResult) (hc : compare_assets_by_price df a b = .ok c) :
    (0 < c.difference → comparisonBetter c = c.asset_1.property_name)
    ∧ (c.difference ≤ 0 → comparisonBetter c = c.asset_2.property_name)
    ∧ (c.asset_1.value = c.asset_2.value →
        c.difference = 0
        ∧ comparisonAnswer c
          = "**Comparison Result:**\n\n* **" ++ c.asset_1.property_name ++ "**: "
            ++ fmtComma2 c.asset_1.value ++ " profit\n* **"
            ++ c.asset_2.property_name ++ "**: " ++ fmtComma2 c.asset_2.value
            ++ " profit\n\nThe property **" ++ c.asset_2.property_name
            ++ "** generated " ++ "0.00" ++ " more profit.") := by
  have hdiff : c.difference = c.asset_1.value - c.asset_2.value := by
    rw [compare_assets_by_price] at hc
    cases h1 : _aggregate_value df a with
    | error e => rw [h1] at hc; simp [Bind.bind, Except.bind] at hc
    | ok s1 =>
      rw [h1] at hc
      cases h2 : _aggregate_value df b with
      | error e => rw [h2] at hc; simp [Bind.bind, Except.bind] at hc
      | ok s2 =>
        rw [h2] at hc
        simp only [Bind.bind, Except.bind, pure, Except.pure] at hc
        cases hc
        rfl
  refine ⟨?_, ?_, ?_⟩
  · intro h
    rw [comparisonBetter, if_pos h]
  · intro h
    rw [comparisonBetter, if_neg (not_lt.mpr h)]
  · intro hv
    have h0 : c.difference = 0 := by rw [hdiff, hv, sub_self]
    refine ⟨h0, ?_⟩
    rw [comparisonAnswer, comparisonBetter, if_neg (by rw [h0]; exact lt_irrefl 0), h0]
    have habs : absQ 0 = 0 := by rw [absQ, if_neg (lt_irrefl 0)]
    rw [habs]
    have hfmt : fmtComma2 0 = "0.00" := by with_unfolding_all rfl
    rw [hfmt]

/-- A second row with the same profit as `rowB17` but another property. -/
def rowB22eq : Row := { rowB17 with property_name := "Building 22", tenant_name := none }

/-- The comparison result of the two equal-profit buildings. -/
def c9cmp : CompareResult :=
  { asset_1 := { property_name := "Building 17", value := 1000, records := 1 }
    asset_2 := { property_name := "Building 22", value := 1000, records := 1 }
    difference := 0 }

/-- Witness for C9: equal totals select the second property. -/
theorem c9_equal_totals_names_second_witness :
    comparisonBetter c9cmp = "Building 22" ∧ c9cmp.difference = 0 := by
  have h := c9_equal_totals_names_second [rowB17, rowB22eq] "Building 17" "Building 22"
    c9cmp (by with_unfolding_all rfl)
  have h3 := h.2.2 rfl
  refine ⟨?_, h3.1⟩
  have hb := h.2.1 (by rw [h3.1])
  rw [hb]
  rfl

-- ===== Claim C10 =====

/-- A well-formed dataset: every row's `month` cell spells a four-digit year —
the row's own `year` value — and a month between 01 and 12, in the literal
`"<year>-M<two-digit-month>"` format the data model expects. -/
def wellFormedData (df : Dataset) : Prop :=
  ∀ r ∈ df, ∃ y m : Int, r.year = some y ∧ 1000 ≤ y ∧ y ≤ 9999
    ∧ 1 ≤ m ∧ m ≤ 12 ∧ r.month = monthKey y m

theorem asString_data (l : List Char) : (List.asString l).data = l := rfl

theorem monthKey_data (y m : Int) : (monthKey y m).data = mkMonth y m := by
  rw [monthKey, mkMonth]
  rw [String.data_append, String.data_append]
  rw [pyIntStr, pad2S, asString_data, asString_data]
  have hdm : "-M".data = ['-', 'M'] := rfl
  rw [hdm, List.append_assoc]
  rfl

theorem mkMonth_lower_no_n (y m : Int) : 'n' ∉ lowerL (mkMonth y m) := by
  intro hmem
  rw [lowerL] at hmem
  obtain ⟨c, hc, hlc⟩ := List.mem_map.mp hmem
  rcases mkMonth_chars y m c hc with hd | hd | hd
  · rw [lowerChar_digit c hd] at hlc
    subst hlc
    exact absurd hd (by decide)
  · subst hd
    exact absurd hlc (by decide)
  · subst hd
    exact absurd hlc (by decide)

/-- C10: for the `data_query` intent, an integer month extracted without a year
is not a user-input error: the retrieval node renders the month filter from the
literal `None` year (`"None-M<mm>"`), which matches no row of a well-formed
dataset, so the state receives a `no_data` query result — carrying the
enriched filters and count 0 — and no error is written. -/
theorem c10_data_query_month_without_year (df : Dataset) (st : AgentState)
    (p : ExtractedParams) (fs : Filters) (m : Int)
    (hwf : wellFormedData df)
    (hintent : st.intent = some "data_query")
    (hp : st.extracted_params = some p)
    (hyear : p.year = none)
    (hmonth : p.month = some (.mint m))
    (hfs : p.filters = some (.fdict fs))
    (hnm : lookupFilter fs "month" = none) :
    retrieve_data df st = { st with retrieved_data := some (.data_query
      { status := "no_data"
        message := some "No records found matching the filters."
        filters := .fdict (fs ++ [("month", FVal.vstr ("None-M" ++ pad2S m))])
        count := 0 }) } := by
  have henrich : enrichFilters (.fdict fs) none (some (.mint m))
      = .ok (.fdict (fs ++ [("month", FVal.vstr ("None-M" ++ pad2S m))])) := by
    have hni : pyNotIn "month" (FiltersVal.fdict fs) = Except.ok true :=
      congrArg Except.ok (decide_eq_true hnm)
    have hset : pySetItem (FiltersVal.fdict fs) "month"
        (.vstr (pyReprOptInt none ++ "-M" ++ pad2S m))
        = .ok (.fdict (fs ++ [("month", FVal.vstr ("None-M" ++ pad2S m))])) := by
      show Except.ok (FiltersVal.fdict (dictSet fs "month"
        (.vstr (pyReprOptInt none ++ "-M" ++ pad2S m)))) = _
      rw [dictSet, if_pos hnm]
      rfl
    show (match pyNotIn "month" (FiltersVal.fdict fs) with
      | .error e => (.error e : Except Exn FiltersVal)
      | .ok b =>
        if b then pySetItem (FiltersVal.fdict fs) "month"
          (.vstr (pyReprOptInt none ++ "-M" ++ pad2S m))
        else .ok (FiltersVal.fdict fs)) = _
    rw [hni]
    exact hset
  have hsub : applyFilters df (fs ++ [("month", FVal.vstr ("None-M" ++ pad2S m))]) = [] := by
    rw [applyFilters_append_single]
    rw [if_pos (by decide : "month" ∈ REQUIRED_COLUMNS)]
    rw [List.filter_eq_nil_iff]
    intro r hr
    have hrdf := applyFilters_sub fs df r hr
    obtain ⟨y, mm, hy, _, _, hm1, hm12, hmon⟩ := hwf r hrdf
    intro hmatch
    rw [rowMatches] at hmatch
    have hcell : cellStr r "month" = r.month := rfl
    rw [hcell, hmon, containsCI, listContains_iff_isInfix] at hmatch
    have hpat : 'n' ∈ lowerL ("None-M" ++ pad2S m).data := by
      rw [String.data_append]
      rw [lowerL, List.map_append]
      apply List.mem_append_left
      decide
    have hhay : 'n' ∈ lowerL (monthKey y mm).data := hmatch.subset hpat
    rw [monthKey_data] at hhay
    exact mkMonth_lower_no_n y mm hhay
  rw [retrieve_data]
  simp only [hintent, hp, hyear, hmonth, hfs, Option.getD_some]
  have hne : ¬(some "data_query" = some "price_comparison") := by decide
  have hne2 : ¬(some "data_query" = some "asset_details") := by decide
  have hne3 : ¬(some "data_query" = some "total_pnl") := by decide
  rw [if_neg hne, if_neg hne2, if_neg hne3, if_pos trivial]
  rw [henrich]
  dsimp only
  have hq : query_data_flexible df
      (.fdict (fs ++ [("month", FVal.vstr ("None-M" ++ pad2S m))]))
      (p.action.getD "show") 200
      = .ok (buildQueryResult
          (applyFilters df (fs ++ [("month", FVal.vstr ("None-M" ++ pad2S m))]))
          (.fdict (fs ++ [("month", FVal.vstr ("None-M" ++ pad2S m))]))
          (p.action.getD "show") 200) := rfl
  rw [hq]
  dsimp only
  rw [buildQueryResult, if_pos (by rw [List.isEmpty_iff]; exact hsub)]

/-- Extracted parameters with month 3 and no year for the witness. -/
def c10params : ExtractedParams :=
  { addresses := [], year := none, month := some (.mint 3),
    filters := some (.fdict []), action := some "show" }

/-- State entering retrieval with intent `data_query` for the witness. -/
def c10state : AgentState :=
  { user_query := "show rows for month 3", intent := some "data_query",
    extracted_params := some c10params }

/-- Witness for C10 on the one-row well-formed dataset. -/
theorem c10_data_query_month_without_year_witness :
    retrieve_data [rowB17] c10state = { c10state with retrieved_data := some (.data_query
      { status := "no_data"
        message := some "No records found matching the filters."
        filters := .fdict [("month", FVal.vstr ("None-M" ++ pad2S 3))]
        count := 0 }) } := by
  have hwf : wellFormedData [rowB17] := by
    intro r hr
    rw [List.mem_singleton] at hr
    subst hr
    exact ⟨2025, 1, rfl, by decide, by decide, by decide, by decide, by decide⟩
  exact c10_data_query_month_without_year [rowB17] c10state c10params [] 3 hwf
    rfl rfl rfl rfl rfl rfl

-- ===== Claim C2 =====

theorem containsAny_of_mem (hay p : String) (pats : List String)
    (hmem : p ∈ pats) (hc : strContains hay p = true) : containsAny hay pats = true := by
  rw [containsAny, List.any_eq_true]
  exact ⟨p, hmem, hc⟩

theorem keywordOverride_mem (q : String) : keywordOverride q ∈ validIntents := by
  rw [keywordOverride]
  by_cases h1 : containsAny q keywords_data_explicit = true
  · rw [if_pos h1]; decide
  · rw [if_neg h1]
    by_cases h2 : containsAny q keywords_pnl = true
    · rw [if_pos h2]; decide
    · rw [if_neg h2]
      by_cases h3 : containsAny q keywords_asset = true
      · rw [if_pos h3]; decide
      · rw [if_neg h3]; decide

/-- C2: with the intent prompt configured, `detect_intent` never raises; a
failed model call behaves exactly like a response `general_qa`; the keyword
override runs exactly when the primary (trimmed, lower-cased) label is
`general_qa`, with precedence data-listing → `data_query`, else aggregation →
`total_pnl`, else asset vocabulary → `asset_details`, else `general_qa`; a
primary label outside the closed five-intent set is coerced to `general_qa`;
and a query containing `"show all"` whose primary label is `general_qa`
resolves to `data_query`. -/
theorem c2_detect_intent_spec (strategy : Strategy) (st : AgentState)
    (hconf : promptConfigured strategy.intent_system_prompt = true) :
    (∀ llm : LlmBehavior, llm.intentResp = none →
      detect_intent strategy llm st
        = detect_intent strategy { llm with intentResp := some "general_qa" } st
      ∧ ∃ l, detect_intent strategy llm st = .ok { st with intent := some l }
          ∧ l ∈ validIntents)
    ∧ (∀ (llm : LlmBehavior) (s : String), llm.intentResp = some s →
        pyLower (pyStrip s) ≠ "general_qa" →
        detect_intent strategy llm st = .ok { st with
          intent := some (if pyLower (pyStrip s) ∈ validIntents then
            pyLower (pyStrip s) else "general_qa") })
    ∧ (∀ (llm : LlmBehavior) (s : String), llm.intentResp = some s →
        pyLower (pyStrip s) = "general_qa" →
        detect_intent strategy llm st
          = .ok { st with intent := some (keywordOverride (pyLower st.user_query)) })
    ∧ (containsAny (pyLower st.user_query) keywords_data_explicit = true →
        keywordOverride (pyLower st.user_query) = "data_query")
    ∧ (containsAny (pyLower st.user_query) keywords_data_explicit = false →
        containsAny (pyLower st.user_query) keywords_pnl = true →
        keywordOverride (pyLower st.user_query) = "total_pnl")
    ∧ (containsAny (pyLower st.user_query) keywords_data_explicit = false →
        containsAny (pyLower st.user_query) keywords_pnl = false →
        containsAny (pyLower st.user_query) keywords_asset = true →
        keywordOverride (pyLower st.user_query) = "asset_details")
    ∧ (containsAny (pyLower st.user_query) keywords_data_explicit = false →
        containsAny (pyLower st.user_query) keywords_pnl = false →
        containsAny (pyLower st.user_query) keywords_asset = false →
        keywordOverride (pyLower st.user_query) = "general_qa")
    ∧ (∀ (llm : LlmBehavior) (s : String), llm.intentResp = some s →
        strContains (pyLower st.user_query) "show all" = true →
        pyLower (pyStrip s) = "general_qa" →
        detect_intent strategy llm st = .ok { st with intent := some "data_query" }) := by
  have hng : ¬¬promptConfigured strategy.intent_system_prompt = true := by
    rw [hconf]; intro h; exact h rfl
  have hko : ∀ q, "general_qa" ∈ validIntents → keywordOverride q ∈ validIntents :=
    fun q _ => keywordOverride_mem q
  have hover : ∀ llm : LlmBehavior, llm.intentResp = none →
      detect_intent strategy llm st
        = .ok { st with
            intent := some (if keywordOverride (pyLower st.user_query) ∈ validIntents then
              keywordOverride (pyLower st.user_query) else "general_qa") } := by
    intro llm hresp
    rw [detect_intent, if_neg hng, hresp]
    dsimp only
    rw [if_pos rfl]
  have hgen : ∀ (llm : LlmBehavior) (s : String), llm.intentResp = some s →
      pyLower (pyStrip s) = "general_qa" →
      detect_intent strategy llm st
        = .ok { st with intent := some (keywordOverride (pyLower st.user_query)) } := by
    intro llm s hresp hlab
    rw [detect_intent, if_neg hng, hresp]
    dsimp only
    rw [hlab, if_pos rfl, if_pos (keywordOverride_mem (pyLower st.user_query))]
  refine ⟨?_, ?_, hgen, ?_, ?_, ?_, ?_, ?_⟩
  · intro llm hresp
    constructor
    · rw [hover llm hresp]
      rw [hgen { llm with intentResp := some "general_qa" } "general_qa" rfl (by decide)]
      rw [if_pos (keywordOverride_mem (pyLower st.user_query))]
    · refine ⟨if keywordOverride (pyLower st.user_query) ∈ validIntents then
        keywordOverride (pyLower st.user_query) else "general_qa", hover llm hresp, ?_⟩
      by_cases h : keywordOverride (pyLower st.user_query) ∈ validIntents
      · rw [if_pos h]; exact h
      · rw [if_neg h]; decide
  · intro llm s hresp hlab
    rw [detect_intent, if_neg hng, hresp]
    dsimp only
    rw [if_neg hlab]
  · intro h1
    rw [keywordOverride, if_pos h1]
  · intro h1 h2
    rw [keywordOverride, if_neg (by rw [h1]; exact Bool.false_ne_true), if_pos h2]
  · intro h1 h2 h3
    rw [keywordOverride, if_neg (by rw [h1]; exact Bool.false_ne_true),
      if_neg (by rw [h2]; exact Bool.false_ne_true), if_pos h3]
  · intro h1 h2 h3
    rw [keywordOverride, if_neg (by rw [h1]; exact Bool.false_ne_true),
      if_neg (by rw [h2]; exact Bool.false_ne_true),
      if_neg (by rw [h3]; exact Bool.false_ne_true)]
  · intro llm s hresp hshow hlab
    rw [hgen llm s hresp hlab]
    have hdata : containsAny (pyLower st.user_query) keywords_data_explicit = true :=
      containsAny_of_mem _ "show all" _ (by decide) hshow
    rw [keywordOverride, if_pos hdata]

/-- Witness for C2: a `show all` query with a model answer `general_qa`
resolves to `data_query`. -/
theorem c2_detect_intent_spec_witness :
    detect_intent { intent_system_prompt := some "p" }
      { intentResp := some "general_qa" } (initialState "Please show all rows")
      = .ok { initialState "Please show all rows" with intent := some "data_query" } := by
  have h := c2_detect_intent_spec { intent_system_prompt := some "p" }
    (initialState "Please show all rows") (by decide)
  exact h.2.2.2.2.2.2.2 { intentResp := some "general_qa" } "general_qa" rfl
    (by decide) (by decide)

-- ===== Claim C1 =====

/-- The missing-extraction-prompt message. -/
def extractPromptMsg : String :=
  "Extract system prompt not configured. Please configure it in Django Admin (Prompt model with type=\x27extract\x27)."

/-- The five-field record the regex fallback produces. -/
def fallbackParams (q : String) : ExtractedParams :=
  match regexFallback q with
  | (a, y, m, f, act) =>
    { addresses := a, year := y, month := m, filters := some (.fdict f), action := some act }

/-- A benign parsed `filters` value for the un-guarded post-processing: a
mapping (anything else raises `AttributeError` on `filters.get` when
`addresses` is falsy) whose truthy `property_name` entry, if any, is a string
(an integer raises `TypeError` on the substring test). -/
def safeFilters : Option FiltersVal → Prop
  | none => True
  | some (.fdict fs) =>
    ∀ n : Int, n ≠ 0 → lookupFilter fs "property_name" ≠ some (.vint n)
  | some _ => False

/-- A parse outcome the post-processing of `extract_params` cannot raise on:
its `filters` value, when present, is benign. -/
def propNameSafe : Option ParsedFields → Prop
  | some parsed => safeFilters parsed.filters
  | none => True

theorem postProcess_ok_of_no_prop (q : String) (a : List String) (f : Filters)
    (hcase : a = [] → lookupFilter f "property_name" = none) :
    postProcessAddresses q a (.fdict f) = .ok a := by
  rw [postProcessAddresses]
  cases a with
  | nil =>
    rw [if_pos (show ([] : List String).isEmpty = true from rfl)]
    dsimp only
    rw [hcase rfl]
  | cons x xs =>
    rw [if_neg (by rw [List.isEmpty_cons]; exact Bool.false_ne_true)]

theorem postProcess_ok_of_safe (q : String) (a : List String) (f : Filters)
    (hsafe : ∀ n : Int, n ≠ 0 → lookupFilter f "property_name" ≠ some (.vint n)) :
    ∃ a2, postProcessAddresses q a (.fdict f) = .ok a2 := by
  rw [postProcessAddresses]
  by_cases ha : a.isEmpty = true
  · rw [if_pos ha]
    dsimp only
    cases hl : lookupFilter f "property_name" with
    | none => exact ⟨a, rfl⟩
    | some v =>
      cases v with
      | vstr s =>
        dsimp only
        by_cases ht : FVal.truthy (.vstr s) = true
        · rw [if_pos ht]
          by_cases hc : strContains s "Building" = true
          · rw [if_pos hc]
            by_cases hbn : ¬(buildingNums q).isEmpty = true
            · rw [if_pos hbn]
              exact ⟨_, rfl⟩
            · rw [if_neg hbn]
              exact ⟨_, rfl⟩
          · rw [if_neg hc]
            exact ⟨a, rfl⟩
        · rw [if_neg ht]
          exact ⟨a, rfl⟩
      | vint n =>
        dsimp only
        by_cases hn : n = 0
        · subst hn
          rw [if_neg (by decide : ¬(FVal.vint 0).truthy = true)]
          exact ⟨a, rfl⟩
        · exact absurd hl (hsafe n hn)
  · rw [if_neg ha]
    exact ⟨a, rfl⟩

theorem regexFallback_ok (q : String) :
    postProcessAddresses q (regexFallback q).1 (.fdict (regexFallback q).2.2.2.1)
      = .ok (regexFallback q).1 := by
  apply postProcess_ok_of_no_prop
  intro ha
  rw [regexFallback] at ha ⊢
  dsimp only at ha ⊢
  rw [fallbackAddresses] at ha
  rw [List.map_eq_nil_iff] at ha
  rw [fallbackPropFilters, ha]
  rcases hmt : findMonthToken q.data with _ | tok <;>
    rcases ht : findTenant q.data with _ | ds <;>
      simp [fallbackMonthFilters, fallbackTenantFilters, hmt, ht, lookupFilter, List.find?]

theorem extract_params_spec (strategy : Strategy) (llm : LlmBehavior)
    (st : AgentState) (hng : st.intent ≠ some "general_qa") :
    (promptConfigured strategy.extract_system_prompt = false →
      extract_params strategy llm st = .error (.valueError extractPromptMsg))
    ∧ (∀ po, promptConfigured strategy.extract_system_prompt = true →
        llm.extractResp = some po → propNameSafe po →
        (∃ ep : ExtractedParams,
          extract_params strategy llm st = .ok { st with extracted_params := some ep }
          ∧ ep.filters.isSome = true ∧ ep.action.isSome = true)
        ∧ (po = none →
            extract_params strategy llm st
              = .ok { st with extracted_params := some (fallbackParams st.user_query) })) := by
  constructor
  · intro hconf
    rw [extract_params, if_neg hng, if_pos (by rw [hconf]; exact Bool.false_ne_true)]
    rfl
  · intro po hconf hresp hsafe
    have hnotnot : ¬¬promptConfigured strategy.extract_system_prompt = true := by
      rw [hconf]; intro h; exact h rfl
    constructor
    · cases po with
      | none =>
        rw [extract_params, if_neg hng, if_neg hnotnot, hresp]
        dsimp only
        rw [regexFallback_ok st.user_query]
        refine ⟨fallbackParams st.user_query, ?_, rfl, rfl⟩
        dsimp only [fallbackParams, regexFallback]
      | some parsed =>
        rw [extract_params, if_neg hng, if_neg hnotnot, hresp]
        dsimp only
        have hsf : safeFilters parsed.filters := hsafe
        cases hf : parsed.filters with
        | none =>
          simp only [Option.getD_none]
          obtain ⟨a2, ha2⟩ := postProcess_ok_of_safe st.user_query
            (parsed.addresses.getD []) [] (fun n hn h => Option.noConfusion h)
          rw [ha2]
          exact ⟨{ addresses := a2, year := parsed.year, month := parsed.month,
                   filters := some (.fdict []),
                   action := some (parsed.action.getD "show") }, rfl, rfl, rfl⟩
        | some fv =>
          rw [hf] at hsf
          cases fv with
          | fdict fs2 =>
            simp only [Option.getD_some]
            obtain ⟨a2, ha2⟩ := postProcess_ok_of_safe st.user_query
              (parsed.addresses.getD []) fs2 hsf
            rw [ha2]
            exact ⟨{ addresses := a2, year := parsed.year, month := parsed.month,
                     filters := some (.fdict fs2),
                     action := some (parsed.action.getD "show") }, rfl, rfl, rfl⟩
          | fnull => exact (hsf : False).elim
          | fstr s2 => exact (hsf : False).elim
          | fint n2 => exact (hsf : False).elim
          | flist l2 => exact (hsf : False).elim
    · intro hpo
      subst hpo
      rw [extract_params, if_neg hng, if_neg hnotnot, hresp]
      dsimp only
      rw [regexFallback_ok st.user_query]
      dsimp only [fallbackParams, regexFallback]

/-- C1 (amended): for every intent other than `general_qa`, with the extraction
prompt configured and a model response obtained, any malformed or non-JSON-
object response triggers the regex fallback and the node writes the five-field
extracted-parameters record; a missing prompt is fatal with the configuration
`ValueError`. As the counterexample forces, one further condition is needed:
the `filters` value of a successfully parsed response must be benign — a
mapping (any other JSON value, e.g. `null`, raises an `AttributeError` on
`filters.get` in the post-processing, outside the parse guard) that carries
no truthy non-string `property_name` (which raises a `TypeError` on the
substring test). -/
theorem c1_extract_params_total (strategy : Strategy) (llm : LlmBehavior)
    (st : AgentState) (hng : st.intent ≠ some "general_qa") :
    (promptConfigured strategy.extract_system_prompt = false →
      extract_params strategy llm st = .error (.valueError extractPromptMsg))
    ∧ (∀ po, promptConfigured strategy.extract_system_prompt = true →
        llm.extractResp = some po → propNameSafe po →
        (∃ ep : ExtractedParams,
          extract_params strategy llm st = .ok { st with extracted_params := some ep }
          ∧ ep.filters.isSome = true ∧ ep.action.isSome = true)
        ∧ (po = none →
            extract_params strategy llm st
              = .ok { st with extracted_params := some (fallbackParams st.user_query) })) :=
  extract_params_spec strategy llm st hng

/-- A well-formed JSON response whose `filters.property_name` is the integer 5. -/
def c1badParsed : ParsedFields :=
  { filters := some (.fdict [("property_name", FVal.vint 5)]) }

/-- A state entering extraction with a non-`general_qa` intent. -/
def c1state : AgentState :=
  { user_query := "show data", intent := some "data_query" }

/-- A second unexcluded fatality of the original C1: a parsed response whose
`filters` value is JSON `null` reaches `filters.get("property_name")` outside
the parse guard and raises an uncaught `AttributeError`. -/
theorem extract_params_null_filters_raises :
    extract_params { extract_system_prompt := some "p" }
      { extractResp := some (some { filters := some .fnull }) }
      { user_query := "show data", intent := some "data_query" }
      = .error (.attributeError "\x27NoneType\x27 object has no attribute \x27get\x27") :=
  rfl

/-- Counterexample to C1 as stated: with the extraction prompt configured and a
successfully parsed (hence neither malformed nor non-JSON) response, the node
raises a `TypeError` out of its post-processing — a fatality that is not the
missing-configuration precondition, and no five-field record is written. -/
theorem c1_counterexample :
    extract_params { extract_system_prompt := some "p" }
      { extractResp := some (some c1badParsed) } c1state
      = .error (.typeError "argument of type \x27int\x27 is not iterable") := by
  rfl

/-- Witness for C1 (amended): a malformed response on a `total_pnl`-intent
state triggers the regex fallback record. -/
theorem c1_extract_params_total_witness :
    extract_params { extract_system_prompt := some "p" } { extractResp := some none }
      { user_query := "total pnl for Building 17 in 2025", intent := some "total_pnl" }
      = .ok { user_query := "total pnl for Building 17 in 2025",
              intent := some "total_pnl",
              extracted_params := some (fallbackParams "total pnl for Building 17 in 2025") } := by
  have h := c1_extract_params_total { extract_system_prompt := some "p" }
    { extractResp := some none }
    { user_query := "total pnl for Building 17 in 2025", intent := some "total_pnl" }
    (by intro h; exact Option.noConfusion h (fun he => by exact absurd he (by decide)))
  exact (h.2 none rfl rfl trivial).2 rfl

-- ===== Claim C6 =====

theorem pad2_len2 (m : Int) (h1 : 1 ≤ m) (h2 : m ≤ 12) : (pad2 m).length = 2 := by
  rw [pad2]
  by_cases h : 0 ≤ m ∧ m < 10
  · rw [if_pos h, intStr, if_neg (by omega)]
    have : (natStr m.toNat).length = 1 := by
      rw [natStr_eq, if_pos (by omega)]
      rfl
    simp [this]
  · rw [if_neg h, intStr, if_neg (by omega)]
    have h10 : ¬m.toNat < 10 := by omega
    rw [natStr_len_succ _ h10]
    rw [natStr_eq, if_pos (by omega)]
    rfl

theorem lowerL_intStr_nonneg (y : Int) (_h : 0 ≤ y) : lowerL (intStr y) = intStr y := by
  apply lowerL_eq_self
  intro c hc
  rcases intStr_chars y c hc with hd | hd
  · exact lowerChar_digit c hd
  · subst hd; decide

theorem lowerL_mkMonth (y m : Int) (hy : 0 ≤ y) :
    lowerL (mkMonth y m) = intStr y ++ '-' :: 'm' :: pad2 m := by
  rw [mkMonth, lowerL, List.map_append, List.map_cons, List.map_cons]
  rw [show lowerChar '-' = '-' from rfl, show lowerChar 'M' = 'm' from rfl]
  have h1 := lowerL_intStr_nonneg y hy
  have h2 := lowerL_pad2 m
  rw [lowerL] at h1 h2
  rw [h1, h2]

theorem monthKey_contains_2025M01 (y m : Int) (hy1 : 1000 ≤ y) (hy2 : y ≤ 9999)
    (hm1 : 1 ≤ m) (hm2 : m ≤ 12) :
    containsCI (monthKey y m) "2025-M01" = true ↔ (y = 2025 ∧ m = 1) := by
  constructor
  · intro h
    rw [containsCI, monthKey_data, listContains_iff_isInfix] at h
    rw [lowerL_mkMonth y m (by omega)] at h
    have hpat : lowerL "2025-M01".data
        = ['2', '0', '2', '5', '-', 'm', '0', '1'] := by decide
    rw [hpat] at h
    obtain ⟨s, t, happ⟩ := h
    have hlen := congrArg List.length happ
    simp only [List.length_append, List.length_cons] at hlen
    have hys := intStr_len4 y hy1 hy2
    have hms := pad2_len2 m hm1 hm2
    have hs : s = [] := List.length_eq_zero.mp (by omega)
    have ht : t = [] := List.length_eq_zero.mp (by omega)
    subst hs; subst ht
    simp only [List.nil_append, List.append_nil] at happ
    have happ2 : (['2', '0', '2', '5'] : List Char) ++ '-' :: 'm' :: ['0', '1']
        = intStr y ++ '-' :: 'm' :: pad2 m := happ
    have hinj := List.append_inj happ2 (by rw [hys]; rfl)
    obtain ⟨hy, hrest⟩ := hinj
    have hpad : (['0', '1'] : List Char) = pad2 m := by
      have := hrest
      simp only [List.cons.injEq, true_and] at this
      exact this
    have hyv : 2025 = y := intStr_inj 2025 y (by rw [← hy]; decide)
    have hmv : 1 = m := pad2_inj 1 m (by rw [← hpad]; decide)
    exact ⟨hyv.symm, hmv.symm⟩
  · intro ⟨hy, hm⟩
    subst hy; subst hm
    decide

/-- C6 (amended): over a well-formed dataset — month cells in the literal
`"<year>-M<mm>"` format consistent with the year cell — the flexible query
filter `month = "2025-M01"` selects exactly the rows whose month column equals
the literal string, and that row list is exactly the one summed by
`compute_total_pnl(year=2025, month=1)`. (As stated over every dataset the
claim fails: the flexible filter is case-insensitive containment, see the
counterexample.) -/
theorem c6_month_roundtrip (df : Dataset) (hwf : wellFormedData df) :
    applyFilters df [("month", FVal.vstr "2025-M01")] = pnlRows df 2025 (some 1)
    ∧ ∀ r ∈ df, (rowMatches r "month" (FVal.vstr "2025-M01") = true
      ↔ r.month = "2025-M01") := by
  have hcell : ∀ r : Row, cellStr r "month" = r.month := fun r => rfl
  have hmk : monthKey 2025 1 = "2025-M01" := by decide
  have hiff : ∀ r ∈ df, (rowMatches r "month" (FVal.vstr "2025-M01") = true
      ↔ r.month = "2025-M01") := by
    intro r hr
    obtain ⟨y, m, hy, hy1, hy2, hm1, hm2, hmon⟩ := hwf r hr
    rw [rowMatches, hcell, hmon]
    rw [monthKey_contains_2025M01 y m hy1 hy2 hm1 hm2]
    constructor
    · intro hp
      rw [hp.1, hp.2]
      exact hmk
    · intro h
      have hdata : mkMonth y m = mkMonth 2025 1 := by
        rw [← monthKey_data y m, ← monthKey_data 2025 1]
        exact congrArg String.data (h.trans hmk.symm)
      exact mkMonth_inj _ _ _ _ hdata
  refine ⟨?_, hiff⟩
  have h1 : applyFilters df [("month", FVal.vstr "2025-M01")]
      = df.filter (fun r => rowMatches r "month" (FVal.vstr "2025-M01")) := by
    rw [applyFilters_cons, if_pos (by decide : "month" ∈ REQUIRED_COLUMNS)]
    rfl
  rw [h1, pnlRows]
  rw [List.filter_filter]
  apply List.filter_congr
  intro r hr
  obtain ⟨y, m, hy, hy1, hy2, hm1, hm2, hmon⟩ := hwf r hr
  by_cases hcm : r.month = "2025-M01"
  · have hl : rowMatches r "month" (FVal.vstr "2025-M01") = true := (hiff r hr).mpr hcm
    have hyv : r.year = some 2025 := by
      have hdata : mkMonth y m = mkMonth 2025 1 := by
        rw [← monthKey_data y m, ← monthKey_data 2025 1]
        exact congrArg String.data ((hmon.symm.trans hcm).trans hmk.symm)
      obtain ⟨hy2025, _⟩ := mkMonth_inj _ _ _ _ hdata
      rw [hy, hy2025]
    rw [hl]
    rw [show (r.year == some 2025) = true from by rw [hyv]; rfl]
    rw [show (r.month == monthKey 2025 1) = true from by
      rw [hcm, hmk]; rfl]
    rfl
  · have hl : rowMatches r "month" (FVal.vstr "2025-M01") = false := by
      cases hb : rowMatches r "month" (FVal.vstr "2025-M01") with
      | true => exact absurd ((hiff r hr).mp hb) hcm
      | false => rfl
    rw [hl]
    have hm2025 : (r.month == monthKey 2025 1) = false := by
      rw [hmk]
      exact beq_eq_false_iff_ne.mpr hcm
    rw [hm2025, Bool.false_and]

/-- A row whose month cell is `"2025-m01"` (lower-case `m`), year 2025. -/
def c6row : Row := { rowB17 with month := "2025-m01" }

/-- Counterexample to C6 as stated: over an arbitrary dataset the two row sets
differ — the flexible month filter is case-insensitive containment, so it
selects the `"2025-m01"` row that the exact-equality filter of
`compute_total_pnl` rejects. -/
theorem c6_counterexample :
    applyFilters [c6row] [("month", FVal.vstr "2025-M01")]
      ≠ pnlRows [c6row] 2025 (some 1) := by decide

/-- Witness for C6 (amended) on a well-formed one-row dataset. -/
theorem c6_month_roundtrip_witness :
    applyFilters [rowB17] [("month", FVal.vstr "2025-M01")]
      = pnlRows [rowB17] 2025 (some 1)
    ∧ (rowMatches rowB17 "month" (FVal.vstr "2025-M01") = true
        ↔ rowB17.month = "2025-M01") := by
  have hwf : wellFormedData [rowB17] := by
    intro r hr
    rw [List.mem_singleton] at hr
    subst hr
    exact ⟨2025, 1, rfl, by decide, by decide, by decide, by decide, by decide⟩
  have h := c6_month_roundtrip [rowB17] hwf
  exact ⟨h.1, h.2 rowB17 (List.mem_singleton.mpr rfl)⟩

-- ===== Claim C3: helper lemmas =====

/-- With the intent prompt configured, `detect_intent` always succeeds and
writes a valid intent. -/
theorem detect_intent_ok (strategy : Strategy) (llm : LlmBehavior) (st : AgentState)
    (hconf : promptConfigured strategy.intent_system_prompt = true) :
    ∃ l, detect_intent strategy llm st = .ok { st with intent := some l }
      ∧ l ∈ validIntents := by
  rw [detect_intent, if_neg (by rw [hconf]; intro h; exact h rfl)]
  dsimp only
  by_cases hg : (match llm.intentResp with
    | some content => pyLower (pyStrip content)
    | none => "general_qa") = "general_qa"
  · rw [if_pos hg, if_pos (keywordOverride_mem _)]
    exact ⟨_, rfl, keywordOverride_mem _⟩
  · rw [if_neg hg]
    by_cases hv : (match llm.intentResp with
      | some content => pyLower (pyStrip content)
      | none => "general_qa") ∈ validIntents
    · rw [if_pos hv]
      exact ⟨_, rfl, hv⟩
    · rw [if_neg hv]
      exact ⟨_, rfl, by decide⟩

/-- The extraction oracle is safe: a parsed response carries a benign
`filters` value — a mapping with no truthy non-string `property_name`. -/
def extractSafe (llm : LlmBehavior) : Prop :=
  match llm.extractResp with
  | some po => propNameSafe po
  | none => True

/-- With the extraction prompt configured and the un-guarded model call
succeeding on a safe response, `extract_params` always succeeds and writes a
parameters record (also on the `general_qa` shortcut). -/
theorem extract_params_ok (strategy : Strategy) (llm : LlmBehavior) (st : AgentState)
    (hconf : promptConfigured strategy.extract_system_prompt = true)
    (hresp : llm.extractResp.isSome = true)
    (hsafe : extractSafe llm) :
    ∃ ep, extract_params strategy llm st = .ok { st with extracted_params := some ep } := by
  by_cases hg : st.intent = some "general_qa"
  · rw [extract_params, if_pos hg]
    exact ⟨_, rfl⟩
  · obtain ⟨po, hpo⟩ := Option.isSome_iff_exists.mp hresp
    have hs : propNameSafe po := by
      rw [extractSafe, hpo] at hsafe
      exact hsafe
    obtain ⟨ep, heq, _, _⟩ := ((extract_params_spec strategy llm st hg).2 po hconf hpo hs).1
    exact ⟨ep, heq⟩

theorem _aggregate_value_error (df : Dataset) (p : String) (e : Exn)
    (h : _aggregate_value df p = .error e) : e = .valueError (notFoundMsg p) := by
  rw [_aggregate_value] at h
  cases hf : _filter_by_property df p with
  | nil =>
    rw [hf] at h
    cases h
    rfl
  | cons r t =>
    rw [hf] at h
    cases h

theorem compare_error_msgs (df : Dataset) (a b : String) (e : Exn)
    (h : compare_assets_by_price df a b = .error e) :
    e = .valueError (notFoundMsg a) ∨ e = .valueError (notFoundMsg b) := by
  rw [compare_assets_by_price] at h
  cases h1 : _aggregate_value df a with
  | error e1 =>
    rw [h1] at h
    simp only [Bind.bind, Except.bind, Except.error.injEq] at h
    exact Or.inl (h ▸ _aggregate_value_error df a e1 h1)
  | ok s1 =>
    rw [h1] at h
    cases h2 : _aggregate_value df b with
    | error e2 =>
      rw [h2] at h
      simp only [Bind.bind, Except.bind, Except.error.injEq] at h
      exact Or.inr (h ▸ _aggregate_value_error df b e2 h2)
    | ok s2 =>
      rw [h2] at h
      simp only [Bind.bind, Except.bind, pure, Except.pure] at h
      cases h

theorem noRecords_ne_empty (period : String) : noRecordsMsg period ≠ "" := by
  rw [noRecordsMsg]
  apply str_append_ne_empty_left
  apply str_append_ne_empty_left
  decide

theorem notFound_ne_empty (p : String) : notFoundMsg p ≠ "" := by
  rw [notFoundMsg]
  apply str_append_ne_empty_left
  apply str_append_ne_empty_left
  decide

theorem pnl_error_msg (df : Dataset) (year : Option Int) (month : Option MVal) (e : Exn)
    (h : compute_total_pnl df year month = .error e) :
    ∃ m, e = .valueError m ∧ m ≠ "" := by
  rw [compute_total_pnl.eq_def] at h
  cases month with
  | none =>
    cases year with
    | none =>
      dsimp only at h
      by_cases he : df.isEmpty = true
      · rw [if_pos he] at h
        cases h
        exact ⟨_, rfl, noRecords_ne_empty (pyReprOptInt none)⟩
      · rw [if_neg he] at h
        cases h
    | some y =>
      dsimp only at h
      by_cases he : (List.filter (fun r : Row => r.year == some y) df).isEmpty = true
      · rw [if_pos he] at h
        cases h
        exact ⟨_, rfl, noRecords_ne_empty (pyReprOptInt (some y))⟩
      · rw [if_neg he] at h
        cases h
  | some m =>
    dsimp only at h
    cases year with
    | none =>
      cases h
      exact ⟨_, rfl, by decide⟩
    | some y =>
      cases m with
      | mstr s =>
        cases h
        exact ⟨_, rfl, by decide⟩
      | mint n =>
        dsimp only at h
        by_cases he : (List.filter (fun r => r.month == monthKey y n)
            (List.filter (fun r => r.year == some y) df)).isEmpty = true
        · rw [if_pos he] at h
          cases h
          exact ⟨_, rfl, noRecords_ne_empty _⟩
        · rw [if_neg he] at h
          cases h

/-- Success of `compute_total_pnl` over a well-formed dataset pins the month
argument: absent, or an integer between 1 and 12 with the year present. -/
theorem pnl_ok_cases (df : Dataset) (year : Option Int) (month : Option MVal) (v : ℚ)
    (hwf : wellFormedData df) (h : compute_total_pnl df year month = .ok v) :
    month = none ∨ ∃ y n, year = some y ∧ month = some (.mint n) ∧ 1 ≤ n ∧ n ≤ 12 := by
  cases month with
  | none => exact Or.inl rfl
  | some m =>
    rw [compute_total_pnl.eq_def] at h
    dsimp only at h
    cases year with
    | none => cases h
    | some y =>
      cases m with
      | mstr s => cases h
      | mint n =>
        dsimp only at h
        by_cases he : (List.filter (fun r => r.month == monthKey y n)
            (List.filter (fun r => r.year == some y) df)).isEmpty = true
        · rw [if_pos he] at h
          cases h
        · have hne : List.filter (fun r => r.month == monthKey y n)
              (List.filter (fun r => r.year == some y) df) ≠ [] := by
            intro hnil
            rw [hnil] at he
            exact he rfl
          obtain ⟨r, hr⟩ := List.exists_mem_of_ne_nil _ hne
          have hmem := List.mem_filter.mp hr
          have hmem2 := List.mem_filter.mp hmem.1
          have hmonth : r.month = monthKey y n := by
            have hb := hmem.2
            rwa [beq_iff_eq] at hb
          obtain ⟨y2, m2, _, _, _, hm1, hm2, hmon2⟩ := hwf r hmem2.1
          have hdata : mkMonth y n = mkMonth y2 m2 := by
            rw [← monthKey_data y n, ← monthKey_data y2 m2]
            exact congrArg String.data (hmonth.symm.trans hmon2)
          obtain ⟨_, hnm⟩ := mkMonth_inj _ _ _ _ hdata
          exact Or.inr ⟨y, n, rfl, rfl, by omega, by omega⟩

/-- A part list whose head exists and is non-empty. -/
def nehead (l : List String) : Prop := ∃ h s, l = h :: s ∧ h ≠ ""

theorem nehead_append {l : List String} (hl : nehead l) (x : List String) :
    nehead (l ++ x) := by
  obtain ⟨h, s, rfl, hne⟩ := hl
  exact ⟨h, s ++ x, rfl, hne⟩

theorem pyJoin_ne_of_nehead {l : List String} (hl : nehead l) (sep : String) :
    pyJoin sep l ≠ "" := by
  obtain ⟨h, s, rfl, hne⟩ := hl
  exact pyJoin_ne_empty sep h s hne

theorem buildQueryResult_props (subset : Dataset) (fv : FiltersVal)
    (a : String) (l : Nat) :
    ((buildQueryResult subset fv a l).status = "no_data" →
      (buildQueryResult subset fv a l).message
        = some "No records found matching the filters.")
    ∧ (buildQueryResult subset fv a l).filters = fv := by
  rw [buildQueryResult]
  by_cases he : subset.isEmpty = true
  · rw [if_pos he]
    exact ⟨fun _ => rfl, rfl⟩
  · rw [if_neg he]
    by_cases hs : a = "show"
    · rw [if_pos hs]
      exact ⟨fun hst => absurd (show ("success" : String) = "no_data" from hst)
        (by decide), rfl⟩
    · rw [if_neg hs]
      by_cases hag : a = "aggregate"
      · rw [if_pos hag]
        exact ⟨fun hst => absurd (show ("success" : String) = "no_data" from hst)
          (by decide), rfl⟩
      · rw [if_neg hag]
        by_cases hco : a = "count"
        · rw [if_pos hco]
          exact ⟨fun hst => absurd (show ("success" : String) = "no_data" from hst)
            (by decide), rfl⟩
        · rw [if_neg hco]
          exact ⟨fun hst => absurd (show ("success" : String) = "no_data" from hst)
            (by decide), rfl⟩

/-- A successful flexible query: the `no_data` status carries the canonical
message, and the echoed `filters` value (the given mapping, or a falsy
non-mapping) cannot raise on `.items()` in the answer rendering. -/
theorem query_ok_props (df : Dataset) (fv : FiltersVal) (a : String) (l : Nat)
    (qr : QueryResult) (h : query_data_flexible df fv a l = .ok qr) :
    (qr.status = "no_data" →
      qr.message = some "No records found matching the filters.")
    ∧ filtersRaisesOnItems qr.filters = false := by
  cases fv with
  | fdict fs =>
    have h2 : buildQueryResult (applyFilters df fs) (.fdict fs) a l = qr :=
      Except.ok.inj h
    subst h2
    refine ⟨(buildQueryResult_props _ _ _ _).1, ?_⟩
    rw [(buildQueryResult_props (applyFilters df fs) (.fdict fs) a l).2]
    rfl
  | fnull =>
    have h2 : buildQueryResult df .fnull a l = qr := Except.ok.inj h
    subst h2
    refine ⟨(buildQueryResult_props _ _ _ _).1, ?_⟩
    rw [(buildQueryResult_props df .fnull a l).2]
    rfl
  | fstr s2 =>
    by_cases ht : FiltersVal.truthy (.fstr s2) = true
    · rw [show query_data_flexible df (.fstr s2) a l
          = (if FiltersVal.truthy (.fstr s2) = true then
              .error (.attributeError ("\x27" ++ pyTypeName (.fstr s2)
                ++ "\x27 object has no attribute \x27items\x27"))
            else .ok (buildQueryResult df (.fstr s2) a l)) from rfl, if_pos ht] at h
      exact Except.noConfusion h
    · rw [show query_data_flexible df (.fstr s2) a l
          = (if FiltersVal.truthy (.fstr s2) = true then
              .error (.attributeError ("\x27" ++ pyTypeName (.fstr s2)
                ++ "\x27 object has no attribute \x27items\x27"))
            else .ok (buildQueryResult df (.fstr s2) a l)) from rfl, if_neg ht] at h
      have h2 : buildQueryResult df (.fstr s2) a l = qr := Except.ok.inj h
      subst h2
      refine ⟨(buildQueryResult_props _ _ _ _).1, ?_⟩
      rw [(buildQueryResult_props df (.fstr s2) a l).2]
      exact Bool.eq_false_iff.mpr ht
  | fint n2 =>
    by_cases ht : FiltersVal.truthy (.fint n2) = true
    · rw [show query_data_flexible df (.fint n2) a l
          = (if FiltersVal.truthy (.fint n2) = true then
              .error (.attributeError ("\x27" ++ pyTypeName (.fint n2)
                ++ "\x27 object has no attribute \x27items\x27"))
            else .ok (buildQueryResult df (.fint n2) a l)) from rfl, if_pos ht] at h
      exact Except.noConfusion h
    · rw [show query_data_flexible df (.fint n2) a l
          = (if FiltersVal.truthy (.fint n2) = true then
              .error (.attributeError ("\x27" ++ pyTypeName (.fint n2)
                ++ "\x27 object has no attribute \x27items\x27"))
            else .ok (buildQueryResult df (.fint n2) a l)) from rfl, if_neg ht] at h
      have h2 : buildQueryResult df (.fint n2) a l = qr := Except.ok.inj h
      subst h2
      refine ⟨(buildQueryResult_props _ _ _ _).1, ?_⟩
      rw [(buildQueryResult_props df (.fint n2) a l).2]
      exact Bool.eq_false_iff.mpr ht
  | flist l2 =>
    by_cases ht : FiltersVal.truthy (.flist l2) = true
    · rw [show query_data_flexible df (.flist l2) a l
          = (if FiltersVal.truthy (.flist l2) = true then
              .error (.attributeError ("\x27" ++ pyTypeName (.flist l2)
                ++ "\x27 object has no attribute \x27items\x27"))
            else .ok (buildQueryResult df (.flist l2) a l)) from rfl, if_pos ht] at h
      exact Except.noConfusion h
    · rw [show query_data_flexible df (.flist l2) a l
          = (if FiltersVal.truthy (.flist l2) = true then
              .error (.attributeError ("\x27" ++ pyTypeName (.flist l2)
                ++ "\x27 object has no attribute \x27items\x27"))
            else .ok (buildQueryResult df (.flist l2) a l)) from rfl, if_neg ht] at h
      have h2 : buildQueryResult df (.flist l2) a l = qr := Except.ok.inj h
      subst h2
      refine ⟨(buildQueryResult_props _ _ _ _).1, ?_⟩
      rw [(buildQueryResult_props df (.flist l2) a l).2]
      exact Bool.eq_false_iff.mpr ht

/-- Whether an exception is a `ValueError` (the one `except` clause of
`retrieve_data` that echoes the bare message). -/
def Exn.isValueError : Exn → Bool
  | .valueError _ => true
  | _ => false

/-- Any non-`ValueError` exception caught by `retrieve_data` is written as a
non-empty (prefixed) error message. -/
theorem exnToStateError_spec (st : AgentState) (e : Exn)
    (h : e.isValueError = false) :
    ∃ msg, exnToStateError st e = { st with error := some msg } ∧ msg ≠ "" := by
  cases e with
  | valueError m => exact Bool.noConfusion h
  | datasetConfigError m => exact ⟨_, rfl, str_append_ne_empty_left _ _ (by decide)⟩
  | typeError m => exact ⟨_, rfl, str_append_ne_empty_left _ _ (by decide)⟩
  | indexError m => exact ⟨_, rfl, str_append_ne_empty_left _ _ (by decide)⟩
  | keyError m => exact ⟨_, rfl, str_append_ne_empty_left _ _ (by decide)⟩
  | attributeError m => exact ⟨_, rfl, str_append_ne_empty_left _ _ (by decide)⟩
  | llmFailure => exact ⟨_, rfl, by decide⟩

theorem pyNotIn_error (key : String) (v : FiltersVal) (e : Exn)
    (h : pyNotIn key v = .error e) : e.isValueError = false := by
  cases v with
  | fdict fs => exact Except.noConfusion h
  | fnull =>
    cases h
    rfl
  | fstr s2 => exact Except.noConfusion h
  | fint n2 =>
    cases h
    rfl
  | flist l2 => exact Except.noConfusion h

theorem pySetItem_error (v : FiltersVal) (key : String) (value : FVal) (e : Exn)
    (h : pySetItem v key value = .error e) : e.isValueError = false := by
  cases v with
  | fdict fs => exact Except.noConfusion h
  | fnull =>
    cases h
    rfl
  | fstr s2 =>
    cases h
    rfl
  | fint n2 =>
    cases h
    rfl
  | flist l2 =>
    cases h
    rfl

theorem enrichYear_error_not_value (v : FiltersVal) (y : Option Int) (e : Exn)
    (h : enrichYear v y = .error e) : e.isValueError = false := by
  cases y with
  | none => exact Except.noConfusion h
  | some yy =>
    have h2 : (match pyNotIn "year" v with
      | .error e2 => (.error e2 : Except Exn FiltersVal)
      | .ok b => if b then pySetItem v "year" (.vint yy) else .ok v) = .error e := h
    cases hni : pyNotIn "year" v with
    | error e2 =>
      rw [hni] at h2
      dsimp only at h2
      cases h2
      exact pyNotIn_error _ _ _ hni
    | ok b =>
      rw [hni] at h2
      dsimp only at h2
      cases b with
      | true =>
        rw [if_pos rfl] at h2
        exact pySetItem_error _ _ _ _ h2
      | false =>
        rw [if_neg Bool.false_ne_true] at h2
        exact Except.noConfusion h2

theorem enrichMonth_error_not_value (v : FiltersVal) (y : Option Int)
    (m : Option MVal) (e : Exn) (h : enrichMonth v y m = .error e) :
    e.isValueError = false := by
  cases m with
  | none => exact Except.noConfusion h
  | some mv =>
    cases mv with
    | mint n =>
      have h2 : (match pyNotIn "month" v with
        | .error e2 => (.error e2 : Except Exn FiltersVal)
        | .ok b =>
          if b then pySetItem v "month" (.vstr (pyReprOptInt y ++ "-M" ++ pad2S n))
          else .ok v) = .error e := h
      cases hni : pyNotIn "month" v with
      | error e2 =>
        rw [hni] at h2
        dsimp only at h2
        cases h2
        exact pyNotIn_error _ _ _ hni
      | ok b =>
        rw [hni] at h2
        dsimp only at h2
        cases b with
        | true =>
          rw [if_pos rfl] at h2
          exact pySetItem_error _ _ _ _ h2
        | false =>
          rw [if_neg Bool.false_ne_true] at h2
          exact Except.noConfusion h2
    | mstr s2 =>
      have h2 : (match pyNotIn "month" v with
        | .error e2 => (.error e2 : Except Exn FiltersVal)
        | .ok b =>
          if b then pySetItem v "month" (.vstr s2)
          else .ok v) = .error e := h
      cases hni : pyNotIn "month" v with
      | error e2 =>
        rw [hni] at h2
        dsimp only at h2
        cases h2
        exact pyNotIn_error _ _ _ hni
      | ok b =>
        rw [hni] at h2
        dsimp only at h2
        cases b with
        | true =>
          rw [if_pos rfl] at h2
          exact pySetItem_error _ _ _ _ h2
        | false =>
          rw [if_neg Bool.false_ne_true] at h2
          exact Except.noConfusion h2

/-- Every exception of the filter enrichment is a `TypeError`, never a
`ValueError`. -/
theorem enrichFilters_error_not_value (v : FiltersVal) (y : Option Int)
    (m : Option MVal) (e : Exn) (h : enrichFilters v y m = .error e) :
    e.isValueError = false := by
  rw [enrichFilters] at h
  cases hy : enrichYear v y with
  | error e2 =>
    rw [hy] at h
    dsimp only at h
    cases h
    exact enrichYear_error_not_value _ _ _ hy
  | ok f2 =>
    rw [hy] at h
    dsimp only at h
    exact enrichMonth_error_not_value _ _ _ _ h

/-- The only exception of the flexible query is the `.items()`
`AttributeError`, never a `ValueError`. -/
theorem query_error_not_value (df : Dataset) (fv : FiltersVal) (a : String)
    (l : Nat) (e : Exn) (h : query_data_flexible df fv a l = .error e) :
    e.isValueError = false := by
  cases fv with
  | fdict fs => exact Except.noConfusion h
  | fnull => exact Except.noConfusion h
  | fstr s2 =>
    have h2 : (if FiltersVal.truthy (.fstr s2) = true then
        (.error (.attributeError ("\x27" ++ pyTypeName (.fstr s2)
          ++ "\x27 object has no attribute \x27items\x27")) : Except Exn QueryResult)
      else .ok (buildQueryResult df (.fstr s2) a l)) = .error e := h
    by_cases ht : FiltersVal.truthy (.fstr s2) = true
    · rw [if_pos ht] at h2
      cases h2
      rfl
    · rw [if_neg ht] at h2
      exact Except.noConfusion h2
  | fint n2 =>
    have h2 : (if FiltersVal.truthy (.fint n2) = true then
        (.error (.attributeError ("\x27" ++ pyTypeName (.fint n2)
          ++ "\x27 object has no attribute \x27items\x27")) : Except Exn QueryResult)
      else .ok (buildQueryResult df (.fint n2) a l)) = .error e := h
    by_cases ht : FiltersVal.truthy (.fint n2) = true
    · rw [if_pos ht] at h2
      cases h2
      rfl
    · rw [if_neg ht] at h2
      exact Except.noConfusion h2
  | flist l2 =>
    have h2 : (if FiltersVal.truthy (.flist l2) = true then
        (.error (.attributeError ("\x27" ++ pyTypeName (.flist l2)
          ++ "\x27 object has no attribute \x27items\x27")) : Except Exn QueryResult)
      else .ok (buildQueryResult df (.flist l2) a l)) = .error e := h
    by_cases ht : FiltersVal.truthy (.flist l2) = true
    · rw [if_pos ht] at h2
      cases h2
      rfl
    · rw [if_neg ht] at h2
      exact Except.noConfusion h2

theorem queryHeader_ne_empty (v : FiltersVal) : queryHeader v ≠ "" := by
  cases v with
  | fdict fs =>
    show (if ¬fs.isEmpty then "**Query Results** (Filters: " ++ filterDesc fs ++ ")\n"
      else "**Query Results**\n") ≠ ""
    by_cases hfe : ¬fs.isEmpty
    · rw [if_pos hfe]
      apply str_append_ne_empty_left
      apply str_append_ne_empty_left
      decide
    · rw [if_neg hfe]
      decide
  | fnull => exact (by decide : ("**Query Results**\n" : String) ≠ "")
  | fstr s2 => exact (by decide : ("**Query Results**\n" : String) ≠ "")
  | fint n2 => exact (by decide : ("**Query Results**\n" : String) ≠ "")
  | flist l2 => exact (by decide : ("**Query Results**\n" : String) ≠ "")

set_option maxRecDepth 16384 in
set_option maxHeartbeats 2000000 in
theorem dataQueryAnswer_ne_empty (qr : QueryResult)
    (hmsg : qr.status = "no_data" →
      qr.message = some "No records found matching the filters.") :
    dataQueryAnswer qr ≠ "" := by
  rw [dataQueryAnswer]
  by_cases hs : qr.status = "no_data"
  · rw [if_pos hs, hmsg hs]
    decide
  · rw [if_neg hs]
    apply pyJoin_ne_of_nehead
    have h0 : nehead [queryHeader qr.filters] :=
      ⟨_, [], rfl, queryHeader_ne_empty qr.filters⟩
    dsimp only
    repeat' first
      | exact h0
      | apply nehead_append
      | split

theorem prop_not_found_ne_empty (a : String) :
    ("Property \x27" ++ a ++ "\x27 not found.") ≠ "" := by
  apply str_append_ne_empty_left
  apply str_append_ne_empty_left
  decide

/-- `retrieve_data` on a valid intent: either it writes a non-empty error
message, or it stores the payload matching the intent (for `total_pnl`, along
with the successful aggregate call; for `data_query`, a flexible-query result). -/
theorem retrieve_data_spec (df : Dataset) (st : AgentState) (i : String)
    (hi : st.intent = some i) (hival : i ∈ validIntents) :
    (∃ msg, retrieve_data df st = { st with error := some msg } ∧ msg ≠ "")
    ∨ (∃ c, i = "price_comparison" ∧ retrieve_data df st
        = { st with retrieved_data := some (.price_comparison c) })
    ∨ (∃ a, i = "asset_details" ∧ retrieve_data df st
        = { st with retrieved_data := some (.asset_details a) })
    ∨ (∃ v, i = "total_pnl"
        ∧ compute_total_pnl df (st.extracted_params.getD emptyParams).year
            (st.extracted_params.getD emptyParams).month = .ok v
        ∧ retrieve_data df st = { st with
            retrieved_data := some (.total_pnl (st.extracted_params.getD emptyParams).year
              (st.extracted_params.getD emptyParams).month v) })
    ∨ (∃ fv act qr, i = "data_query" ∧ query_data_flexible df fv act 200 = .ok qr
        ∧ retrieve_data df st = { st with retrieved_data := some (.data_query qr) })
    ∨ (i = "general_qa" ∧ retrieve_data df st
        = { st with retrieved_data := some .general_qa }) := by
  fin_cases hival
  · -- price_comparison
    rw [retrieve_data, hi]
    try dsimp only
    rw [if_pos rfl]
    by_cases haddr : (st.extracted_params.getD emptyParams).addresses.length < 2
    · rw [if_pos haddr]
      exact Or.inl ⟨_, rfl, by decide⟩
    · rw [if_neg haddr]
      cases hcmp : compare_assets_by_price df
          ((st.extracted_params.getD emptyParams).addresses.getD 0 "")
          ((st.extracted_params.getD emptyParams).addresses.getD 1 "") with
      | error e =>
        rcases compare_error_msgs _ _ _ _ hcmp with he | he <;>
          (subst he
           dsimp only [exnToStateError]
           exact Or.inl ⟨_, by rw [hi], notFound_ne_empty _⟩)
      | ok c =>
        exact Or.inr (Or.inl ⟨c, rfl, rfl⟩)
  · -- total_pnl
    rw [retrieve_data, hi]
    try dsimp only
    rw [if_neg (by decide : ¬(some "total_pnl" = some "price_comparison")),
      if_neg (by decide : ¬(some "total_pnl" = some "asset_details")), if_pos rfl]
    cases hpnl : compute_total_pnl df (st.extracted_params.getD emptyParams).year
        (st.extracted_params.getD emptyParams).month with
    | error e =>
      obtain ⟨m, hm, hmne⟩ := pnl_error_msg _ _ _ _ hpnl
      subst hm
      dsimp only [exnToStateError]
      exact Or.inl ⟨m, by rw [hi], hmne⟩
    | ok v =>
      exact Or.inr (Or.inr (Or.inr (Or.inl ⟨v, rfl, rfl, rfl⟩)))
  · -- asset_details
    rw [retrieve_data, hi]
    try dsimp only
    rw [if_neg (by decide : ¬(some "asset_details" = some "price_comparison")), if_pos rfl]
    by_cases haddr : (st.extracted_params.getD emptyParams).addresses.isEmpty = true
    · rw [if_pos haddr]
      exact Or.inl ⟨_, rfl, by decide⟩
    · rw [if_neg haddr]
      cases hget : get_single_asset df
          ((st.extracted_params.getD emptyParams).addresses.getD 0 "") with
      | none =>
        exact Or.inl ⟨_, rfl, prop_not_found_ne_empty _⟩
      | some record =>
        exact Or.inr (Or.inr (Or.inl ⟨record, rfl, rfl⟩))
  · -- general_qa
    rw [retrieve_data, hi]
    try dsimp only
    rw [if_neg (by decide : ¬(some "general_qa" = some "price_comparison")),
      if_neg (by decide : ¬(some "general_qa" = some "asset_details")),
      if_neg (by decide : ¬(some "general_qa" = some "total_pnl")),
      if_neg (by decide : ¬(some "general_qa" = some "data_query")), if_pos rfl]
    exact Or.inr (Or.inr (Or.inr (Or.inr (Or.inr ⟨rfl, rfl⟩))))
  · -- data_query
    rw [retrieve_data, hi]
    try dsimp only
    rw [if_neg (by decide : ¬(some "data_query" = some "price_comparison")),
      if_neg (by decide : ¬(some "data_query" = some "asset_details")),
      if_neg (by decide : ¬(some "data_query" = some "total_pnl")), if_pos rfl]
    cases henr : enrichFilters ((st.extracted_params.getD emptyParams).filters.getD (.fdict []))
        (st.extracted_params.getD emptyParams).year
        (st.extracted_params.getD emptyParams).month with
    | error e =>
      obtain ⟨msg, hmsg, hne⟩ := exnToStateError_spec st e
        (enrichFilters_error_not_value _ _ _ _ henr)
      exact Or.inl ⟨msg, by dsimp only; rw [hmsg, hi], hne⟩
    | ok fv =>
      dsimp only
      cases hq : query_data_flexible df fv
          ((st.extracted_params.getD emptyParams).action.getD "show") 200 with
      | error e =>
        obtain ⟨msg, hmsg, hne⟩ := exnToStateError_spec st e
          (query_error_not_value _ _ _ _ _ hq)
        exact Or.inl ⟨msg, by dsimp only; rw [hmsg, hi], hne⟩
      | ok qr =>
        exact Or.inr (Or.inr (Or.inr (Or.inr (Or.inl ⟨fv, _, qr, rfl, hq, rfl⟩))))

theorem comparisonAnswer_ne_empty (c : CompareResult) : comparisonAnswer c ≠ "" := by
  rw [comparisonAnswer]
  repeat apply str_append_ne_empty_left
  decide

theorem pnlTimeFrame_ok (yr : Option Int) (mn : Option MVal)
    (h : mn = none ∨ ∃ y n, yr = some y ∧ mn = some (.mint n) ∧ 1 ≤ n ∧ n ≤ 12) :
    ∃ tf, pnlTimeFrame yr mn = .ok tf := by
  rcases h with rfl | ⟨y, n, rfl, rfl, hn1, hn2⟩
  · cases yr with
    | none => exact ⟨_, rfl⟩
    | some y =>
      rw [pnlTimeFrame]
      by_cases hy : y ≠ 0
      · rw [if_pos hy]
        exact ⟨_, rfl⟩
      · rw [if_neg hy]
        exact ⟨_, rfl⟩
  · rw [pnlTimeFrame]
    by_cases hc : y ≠ 0 ∧ pyTruthyOptMVal (some (.mint n)) = true
    · rw [if_pos hc]
      rw [calendarMonthName, if_pos (by omega : 0 ≤ n ∧ n < 13)]
      exact ⟨_, rfl⟩
    · rw [if_neg hc]
      by_cases hy : y ≠ 0
      · rw [if_pos hy]
        exact ⟨_, rfl⟩
      · rw [if_neg hy]
        exact ⟨_, rfl⟩

theorem pyTruthy_none : pyTruthyOptStr none = false := rfl

/-- `compute_answer` on an error-free state whose payload matches its intent:
it succeeds and writes a non-empty answer. -/
theorem compute_answer_nonempty (strategy : Strategy) (llm : LlmBehavior)
    (st : AgentState) (herr : st.error = none)
    (hqaconf : promptConfigured strategy.general_qa_system_prompt = true)
    (hqa : ∃ s, llm.qaResp = some s ∧ s ≠ "")
    (hcase :
      (st.intent = some "price_comparison"
        ∧ ∃ c, st.retrieved_data = some (.price_comparison c))
      ∨ (st.intent = some "asset_details"
        ∧ ∃ a, st.retrieved_data = some (.asset_details a))
      ∨ (st.intent = some "total_pnl"
        ∧ ∃ yr mn v, st.retrieved_data = some (.total_pnl yr mn v)
          ∧ (mn = none ∨ ∃ y n, yr = some y ∧ mn = some (.mint n) ∧ 1 ≤ n ∧ n ≤ 12))
      ∨ (st.intent = some "data_query"
        ∧ ∃ df fv act qr, query_data_flexible df fv act 200 = .ok qr
          ∧ st.retrieved_data = some (.data_query qr))
      ∨ st.intent = some "general_qa") :
    ∃ ans, compute_answer strategy llm st = .ok { st with answer := some ans }
      ∧ ans ≠ "" := by
  have herr2 : ¬st.error.isSome = true := by rw [herr]; decide
  rcases hcase with ⟨hi, c, hrd⟩ | ⟨hi, a, hrd⟩ | ⟨hi, yr, mn, v, hrd, hmn⟩
    | ⟨hi, df, fv, act, qr, hok, hrd⟩ | hi
  · rw [compute_answer, if_neg herr2, if_pos hi, hrd]
    exact ⟨_, rfl, comparisonAnswer_ne_empty c⟩
  · rw [compute_answer, if_neg herr2,
      if_neg (by rw [hi]; decide), if_pos hi, hrd]
    refine ⟨_, rfl, ?_⟩
    apply str_append_ne_empty_left
    decide
  · rw [compute_answer, if_neg herr2,
      if_neg (by rw [hi]; decide), if_neg (by rw [hi]; decide), if_pos hi, hrd]
    obtain ⟨tf, htf⟩ := pnlTimeFrame_ok yr mn hmn
    dsimp only
    rw [htf]
    refine ⟨_, rfl, ?_⟩
    repeat apply str_append_ne_empty_left
    decide
  · obtain ⟨hnd, hraise⟩ := query_ok_props df fv act 200 qr hok
    rw [compute_answer, if_neg herr2,
      if_neg (by rw [hi]; decide), if_neg (by rw [hi]; decide),
      if_neg (by rw [hi]; decide), if_pos hi, hrd]
    dsimp only
    rw [if_neg (fun hand => absurd hand.2 (by rw [hraise]; exact Bool.false_ne_true))]
    refine ⟨_, rfl, ?_⟩
    exact dataQueryAnswer_ne_empty _ hnd
  · obtain ⟨s, hresp, hsne⟩ := hqa
    rw [compute_answer, if_neg herr2,
      if_neg (by rw [hi]; decide), if_neg (by rw [hi]; decide),
      if_neg (by rw [hi]; decide), if_neg (by rw [hi]; decide), if_pos hi,
      if_neg (by rw [hqaconf]; intro hh; exact hh rfl), hresp]
    exact ⟨s, rfl, hsne⟩

theorem bind_ok {α β : Type} (a : α) (f : α → Except Exn β) :
    (Except.ok a : Except Exn α) >>= f = f a := rfl

theorem route_ok (st : AgentState) (he : st.error = none) :
    route_after_retrieval st = "compute_answer" := by
  rw [route_after_retrieval, he]
  rw [if_neg (by decide)]

/-- The pipeline after a successful extraction: retrieval plus the routed
terminal node. Exactly one terminal runs — `end_with_error` iff the final
state carries a truthy error — and the final answer field is non-empty. -/
theorem pipeline_tail_spec (df : Dataset) (strategy : Strategy) (llm : LlmBehavior)
    (stB : AgentState) (l : String)
    (hi : stB.intent = some l) (hlval : l ∈ validIntents)
    (herr : stB.error = none) (hans : stB.answer = none)
    (h3 : promptConfigured strategy.general_qa_system_prompt = true)
    (h6 : ∃ s, llm.qaResp = some s ∧ s ≠ "")
    (h7 : wellFormedData df) :
    ∃ t st4,
      ((if route_after_retrieval (retrieve_data df stB) = "end_with_error" then
        Except.ok ("end_with_error", end_with_error (retrieve_data df stB))
      else
        compute_answer strategy llm (retrieve_data df stB) >>=
          fun st4 => Except.ok ("compute_answer", st4)) :
            Except Exn (String × AgentState)) = Except.ok (t, st4)
      ∧ ((pyTruthyOptStr st4.error = true ∧ t = "end_with_error")
        ∨ (pyTruthyOptStr st4.error = false ∧ t = "compute_answer"))
      ∧ st4.answer.getD "" ≠ "" := by
  rcases retrieve_data_spec df stB l hi hlval with
    ⟨msg, hret, hmne⟩ | ⟨c, hl, hret⟩ | ⟨a, hl, hret⟩ | ⟨v, hl, hpnl, hret⟩
    | ⟨fv, act, qr, hl, hok, hret⟩ | ⟨hl, hret⟩
  · -- retrieval recorded an error: end_with_error runs and echoes it
    rw [hret]
    have hroute2 : route_after_retrieval { stB with error := some msg }
        = "end_with_error" := by
      rw [route_after_retrieval]
      exact if_pos (decide_eq_true hmne)
    rw [if_pos hroute2]
    have hend : end_with_error { stB with error := some msg }
        = { stB with error := some msg, answer := some msg } := by
      rw [end_with_error, if_pos ⟨decide_eq_true hmne,
        fun h => by rw [hans] at h; exact Bool.noConfusion h⟩]
    refine ⟨"end_with_error", _, rfl, ?_, ?_⟩
    · rw [hend]
      exact Or.inl ⟨decide_eq_true hmne, rfl⟩
    · rw [hend]
      exact hmne
  · -- price comparison payload
    subst hl
    rw [hret]
    obtain ⟨ans, hca, hansne⟩ := compute_answer_nonempty strategy llm
      { stB with retrieved_data := some (.price_comparison c) } herr h3 h6
      (Or.inl ⟨hi, c, rfl⟩)
    have herr2 : ({ stB with retrieved_data := some (.price_comparison c) } : AgentState).error = none := herr
    rw [if_neg (by rw [route_ok _ herr2]; decide), hca, bind_ok]
    refine ⟨"compute_answer", _, rfl, Or.inr ⟨?_, rfl⟩, hansne⟩
    exact (by rw [herr]; rfl : pyTruthyOptStr stB.error = false)
  · -- asset details payload
    subst hl
    rw [hret]
    obtain ⟨ans, hca, hansne⟩ := compute_answer_nonempty strategy llm
      { stB with retrieved_data := some (.asset_details a) } herr h3 h6
      (Or.inr (Or.inl ⟨hi, a, rfl⟩))
    have herr2 : ({ stB with retrieved_data := some (.asset_details a) } : AgentState).error = none := herr
    rw [if_neg (by rw [route_ok _ herr2]; decide), hca, bind_ok]
    refine ⟨"compute_answer", _, rfl, Or.inr ⟨?_, rfl⟩, hansne⟩
    exact (by rw [herr]; rfl : pyTruthyOptStr stB.error = false)
  · -- total P&L payload; the month shape comes from the successful aggregate
    subst hl
    rw [hret]
    obtain ⟨ans, hca, hansne⟩ := compute_answer_nonempty strategy llm
      { stB with retrieved_data := some (.total_pnl
          (stB.extracted_params.getD emptyParams).year
          (stB.extracted_params.getD emptyParams).month v) } herr h3 h6
      (Or.inr (Or.inr (Or.inl ⟨hi, _, _, v, rfl,
        pnl_ok_cases df _ _ v h7 hpnl⟩)))
    have herr2 : ({ stB with retrieved_data := some (.total_pnl
          (stB.extracted_params.getD emptyParams).year
          (stB.extracted_params.getD emptyParams).month v) } : AgentState).error = none := herr
    rw [if_neg (by rw [route_ok _ herr2]; decide), hca, bind_ok]
    refine ⟨"compute_answer", _, rfl, Or.inr ⟨?_, rfl⟩, hansne⟩
    exact (by rw [herr]; rfl : pyTruthyOptStr stB.error = false)
  · -- flexible query payload
    subst hl
    rw [hret]
    obtain ⟨ans, hca, hansne⟩ := compute_answer_nonempty strategy llm
      { stB with retrieved_data := some (.data_query qr) }
      herr h3 h6 (Or.inr (Or.inr (Or.inr (Or.inl ⟨hi, df, fv, act, qr, hok, rfl⟩))))
    have herr2 : ({ stB with retrieved_data := some (.data_query qr) } : AgentState).error = none := herr
    rw [if_neg (by rw [route_ok _ herr2]; decide), hca, bind_ok]
    refine ⟨"compute_answer", _, rfl, Or.inr ⟨?_, rfl⟩, hansne⟩
    exact (by rw [herr]; rfl : pyTruthyOptStr stB.error = false)
  · -- general QA payload
    subst hl
    rw [hret]
    obtain ⟨ans, hca, hansne⟩ := compute_answer_nonempty strategy llm
      { stB with retrieved_data := some .general_qa } herr h3 h6
      (Or.inr (Or.inr (Or.inr (Or.inr hi))))
    have herr2 : ({ stB with retrieved_data := some .general_qa } : AgentState).error = none := herr
    rw [if_neg (by rw [route_ok _ herr2]; decide), hca, bind_ok]
    refine ⟨"compute_answer", _, rfl, Or.inr ⟨?_, rfl⟩, hansne⟩
    exact (by rw [herr]; rfl : pyTruthyOptStr stB.error = false)

-- ===== C3 =====

/-- A strategy with every prompt configured. -/
def c3strategy : Strategy :=
  { intent_system_prompt := some "p"
    extract_system_prompt := some "p"
    general_qa_system_prompt := some "p" }

/-- A benign model: classifies as `general_qa`, returns an unparsable
extraction response (exercising the regex fallback), answers QA with `"ok"`. -/
def c3llmW : LlmBehavior :=
  { intentResp := some "general_qa"
    extractResp := some none
    qaResp := some "ok" }

/-- C3 (amended): with the intent, extraction and QA prompts configured, the
unguarded extraction model call returning, its parsed `filters` value benign
(a mapping with no truthy non-string `property_name` — anything else can
abort `extract_params` with no terminal node), the QA model answering
non-empty text, and the dataset well-formed, every run executes exactly one
terminal node — `end_with_error` exactly when the final state carries a
truthy error, `compute_answer` exactly when it does not — and the answer
returned by `run_agent` is non-empty. -/
theorem c3_exactly_one_terminal_nonempty_answer (df : Dataset) (strategy : Strategy)
    (llm : LlmBehavior) (q : String)
    (h1 : promptConfigured strategy.intent_system_prompt = true)
    (h2 : promptConfigured strategy.extract_system_prompt = true)
    (h3 : promptConfigured strategy.general_qa_system_prompt = true)
    (h4 : llm.extractResp.isSome = true)
    (h5 : extractSafe llm)
    (h6 : ∃ s, llm.qaResp = some s ∧ s ≠ "")
    (h7 : wellFormedData df) :
    ∃ t stF, runPipeline df strategy llm q = .ok (t, stF)
      ∧ ((pyTruthyOptStr stF.error = true ∧ t = "end_with_error"
          ∧ t ≠ "compute_answer")
        ∨ (pyTruthyOptStr stF.error = false ∧ t = "compute_answer"
          ∧ t ≠ "end_with_error"))
      ∧ ∃ ans d, run_agent df strategy llm q = .ok (ans, d) ∧ ans ≠ "" := by
  obtain ⟨l, hdet, hlval⟩ := detect_intent_ok strategy llm (initialState q) h1
  obtain ⟨ep, hext⟩ := extract_params_ok strategy llm
    { initialState q with intent := some l } h2 h4 h5
  obtain ⟨t, st4, heq, hx, hne⟩ := pipeline_tail_spec df strategy llm
    { { initialState q with intent := some l } with extracted_params := some ep }
    l rfl hlval rfl rfl h3 h6 h7
  have hpipe : runPipeline df strategy llm q = .ok (t, st4) := by
    simp only [runPipeline, hdet, hext, bind_ok]
    exact heq
  refine ⟨t, st4, hpipe, ?_, ?_⟩
  · rcases hx with ⟨he, ht⟩ | ⟨he, ht⟩
    · subst ht
      exact Or.inl ⟨he, rfl, by decide⟩
    · subst ht
      exact Or.inr ⟨he, rfl, by decide⟩
  · have hag : run_agent df strategy llm q = .ok (st4.answer.getD "",
        { intent := st4.intent
          extracted_params := st4.extracted_params
          retrieved_data := st4.retrieved_data
          error := st4.error }) := by
      simp only [run_agent, hpipe, bind_ok]
      rw [if_neg (fun hand => hne hand.1)]
      rfl
    exact ⟨_, _, hag, hne⟩

theorem c3_exactly_one_terminal_nonempty_answer_witness :
    ∃ t stF, runPipeline [] c3strategy c3llmW "hello" = .ok (t, stF)
      ∧ ((pyTruthyOptStr stF.error = true ∧ t = "end_with_error"
          ∧ t ≠ "compute_answer")
        ∨ (pyTruthyOptStr stF.error = false ∧ t = "compute_answer"
          ∧ t ≠ "end_with_error"))
      ∧ ∃ ans d, run_agent [] c3strategy c3llmW "hello" = .ok (ans, d) ∧ ans ≠ "" :=
  c3_exactly_one_terminal_nonempty_answer [] c3strategy c3llmW "hello"
    (by decide) (by decide) (by decide) (by decide)
    (by rw [extractSafe, c3llmW]; exact trivial)
    ⟨"ok", rfl, by decide⟩
    (fun r hr => absurd hr (List.not_mem_nil r))

/-- C3 counterexample: every prompt is configured and the pipeline completes
through `compute_answer`, yet `run_agent` returns the empty answer because
the QA model answered the empty string — refuting "the returned answer is
always non-empty text" as stated. -/
theorem c3_counterexample :
    ∃ d, run_agent [] c3strategy
      { intentResp := some "general_qa"
        extractResp := some none
        qaResp := some "" } "hello" = .ok ("", d) := ⟨_, rfl⟩
